import Mathlib

/-!
gst-tutorial: the control core of the gstreamermm tutorials.

A shallow embedding of the bus handlers, timer callbacks, pad-added resolver
and `main` functions of `basic-tutorial-3.cpp`, `basic-tutorial-4.cpp`,
`basic-tutorial-5.cpp` and `dynamic_src.cpp`, and of `format_gst_time`.

Conventions of the embedding.

* File-scope variables and class members become fields of a state record.
* The calls made on external objects (elements, pads, the main loop, the
  console, the slider) are appended to the field `log`, oldest first;
  `refresh_ui` and `analyze_streams` also record that they were entered.
* What an external call answers is an argument of the handler that makes the
  call (a `QueryReply`, a `SeekingReply`, a `PadLinkReturn`), so every theorem
  quantifies over all answers the library could give.
-/

namespace GstTutorial

/-! ## Library vocabulary used by the sources -/

/-- Modelled from the spec: `Gst::CLOCK_TIME_NONE` cast to `gint64`, the
"unknown" duration; the constant is declared by the GStreamer headers, which
are not part of the sources. -/
def CLOCK_TIME_NONE : Int := -1

/-- Modelled from the spec: `Gst::SECOND`, one second in nanoseconds; declared
by the GStreamer headers, which are not part of the sources. -/
def SECOND : Int := 1000000000

/-- Modelled from the spec: the lifecycle states `Gst::State`, declared by the
GStreamer headers, which are not part of the sources: the four states in
their order `NULL < READY < PAUSED < PLAYING`, preceded by the `VOID_PENDING`
of the enumeration. -/
inductive State where
  | VOID_PENDING
  | NULL
  | READY
  | PAUSED
  | PLAYING
  deriving DecidableEq, Repr

/-- Numeric value of a `Gst::State`, used by the comparison
`stream_state < Gst::STATE_PAUSED`. -/
def State.toNat : State → Nat
  | .VOID_PENDING => 0
  | .NULL => 1
  | .READY => 2
  | .PAUSED => 3
  | .PLAYING => 4

/-- Modelled from the spec: `gst_element_state_get_name`, a library function
that is not part of the sources. -/
def state_get_name : State → String
  | .VOID_PENDING => "VOID_PENDING"
  | .NULL => "NULL"
  | .READY => "READY"
  | .PAUSED => "PAUSED"
  | .PLAYING => "PLAYING"

/-- Modelled from the spec: the answers of `set_state`,
`Gst::StateChangeReturn`, declared by the GStreamer headers, which are not
part of the sources. -/
inductive StateChangeReturn where
  | FAILURE
  | SUCCESS
  | ASYNC
  | NO_PREROLL
  deriving DecidableEq, Repr

/-- Modelled from the spec: the answers of `Gst::Pad::link`,
`Gst::PadLinkReturn`, declared by the GStreamer headers, which are not part of
the sources. -/
inductive PadLinkReturn where
  | OK
  | WRONG_HIERARCHY
  | WAS_LINKED
  | WRONG_DIRECTION
  | NOFORMAT
  | NOSCHED
  | REFUSED
  deriving DecidableEq, Repr

/-- Modelled from the spec: the message kinds of `Gst::MessageType` the
handlers switch on; every other kind is `OTHER` with its numeric code. The
enumeration is declared by the GStreamer headers, which are not part of the
sources. -/
inductive MessageType where
  | EOS
  | ERROR
  | STATE_CHANGED
  | DURATION_CHANGED
  | APPLICATION
  | OTHER (code : Nat)
  deriving DecidableEq, Repr

/-- A `Gst::Object` as the handlers see it: its identity (the address the
`RefPtr` comparison looks at) and its name. -/
structure GstObject where
  id : Nat
  name : String
  deriving DecidableEq, Repr

/-- A bus message with everything the handlers read from it. The payload
fields are those of the message subclasses (`parse_error`, `parse_debug`,
`parse_old_state`, `parse_new_state`, `get_structure().get_name()`). -/
structure Message where
  message_type : MessageType
  source : GstObject
  error_what : String
  debug_info : String
  old_state : State
  new_state : State
  structure_name : String
  deriving DecidableEq, Repr

/-- Answer of `query_position` / `query_duration`: the boolean returned and
the content of the `gint64&` out-parameter after the call. -/
structure QueryReply where
  ok : Bool
  value : Int
  deriving DecidableEq, Repr

/-- Answer of the seeking query: the boolean returned by `playbin->query` and
what `QuerySeeking::parse` yields. -/
structure SeekingReply where
  ok : Bool
  seekable : Bool
  segment_start : Int
  segment_end : Int
  deriving DecidableEq, Repr

/-- One effect on the world outside the tracked variables. Element-directed
calls carry the identity of the element they are made on. -/
inductive Act where
  | cout (text : String)
  | cerr (text : String)
  | cout_seeking_enabled (segment_start segment_end : Int)
  | cout_position (position duration : Int)
  | mainloop_quit
  | set_state (element : Nat) (target : State)
  | query_seeking (element : Nat)
  | query_position (element : Nat)
  | query_duration (element : Nat)
  | seek (element : Nat) (target : Int)
  | post_application (element : Nat) (structure_name : String)
  | slider_set_range (stream_duration : Int)
  | slider_set_value (current : Int)
  | enter_refresh_ui
  | enter_analyze_streams
  | get_static_pad (element : Nat) (pad : String)
  | get_current_caps (pad : Nat)
  | pad_link (src_pad sink_pad : Nat)
  | set_property (element : Nat) (property value : String)
  | bin_add (bin element : Nat)
  | element_link (src dst : Nat)
  | window_close
  | bin_remove (bin element : Nat)
  | create_element (factory name : String)
  | set_property_int (element : Nat) (property : String) (value : Int)
  | set_property_bool (element : Nat) (property : String) (value : Bool)
  deriving DecidableEq, Repr

/-- Modelled from the spec: `EXIT_SUCCESS` of `<cstdlib>`, which is not part of
the sources. -/
def EXIT_SUCCESS : Nat := 0

/-- Modelled from the spec: `EXIT_FAILURE` of `<cstdlib>`, which is not part of
the sources. -/
def EXIT_FAILURE : Nat := 1

/-- How a run of `main` over a finite sequence of events ends: `main` has
returned with an exit status, or the events are used up and the dispatch
loop is still waiting, or the program has dereferenced an empty `RefPtr`. -/
inductive Outcome where
  | exit (status : Nat)
  | running
  | fault
  deriving DecidableEq, Repr

/-- Modelled from the spec: `Glib::str_has_prefix`, a library function that is
not part of the sources: whether `str` begins with `pre`. -/
def str_has_prefix (str pre : String) : Bool :=
  pre.toList.isPrefixOf str.toList

/-- Modelled from the spec: the decimal digits `operator<<` of the C++ library
writes for an unsigned number, most significant first; `fuel` bounds the
number of digits. -/
def decimal_fuel : Nat → Nat → List Char
  | 0, _ => []
  | fuel + 1, n =>
    if n < 10 then [Nat.digitChar n]
    else decimal_fuel fuel (n / 10) ++ [Nat.digitChar (n % 10)]

/-- Modelled from the spec: the text `operator<<` of the C++ library writes for
an unsigned number. -/
def decimal (n : Nat) : List Char := decimal_fuel (n + 1) n

/-- Modelled from the spec: the adjustment of a field in a C++ output stream
(`std::left`, `std::right`). -/
inductive Adjust where
  | left
  | right
  deriving DecidableEq, Repr

/-- Modelled from the spec: a `std::ostringstream` of the C++ library, which is
not part of the sources: the text written so far and the formatting state
(fill character, adjustment, and the width set for the next output). -/
structure OStream where
  out : List Char
  fill : Char
  adjust : Adjust
  width : Nat
  deriving DecidableEq, Repr

/-- Modelled from the spec: a fresh `std::ostringstream`: nothing written, fill
character blank, adjusted to the right, width 0. -/
def OStream.empty : OStream := ⟨[], ' ', Adjust.right, 0⟩

/-- Modelled from the spec: `<< std::setfill(c)`. -/
def OStream.setfill (os : OStream) (c : Char) : OStream := { os with fill := c }

/-- Modelled from the spec: `<< std::setw(n)`. -/
def OStream.setw (os : OStream) (n : Nat) : OStream := { os with width := n }

/-- Modelled from the spec: `<< std::left` and `<< std::right`. -/
def OStream.set_adjust (os : OStream) (a : Adjust) : OStream := { os with adjust := a }

/-- Modelled from the spec: a formatted output of the C++ library: a text
shorter than the width is filled up to the width with the fill character, on
the left when the stream is adjusted to the right and on the right when it is
adjusted to the left; the width is then reset to 0. -/
def OStream.put (os : OStream) (text : List Char) : OStream :=
  { os with
    out := os.out ++
      (match os.adjust with
        | Adjust.right => List.replicate (os.width - text.length) os.fill ++ text
        | Adjust.left => text ++ List.replicate (os.width - text.length) os.fill),
    width := 0 }

/-- Modelled from the spec: `<<` of an unsigned number. -/
def OStream.put_uint (os : OStream) (n : Nat) : OStream := os.put (decimal n)

/-- Modelled from the spec: `.str()`. -/
def OStream.str (os : OStream) : String := String.mk os.out

/-- Modelled from the spec: the conversion of a `gint64` to the unsigned
`Gst::ClockTime` the time functions take. -/
def to_clock_time (t : Int) : Nat := (t % 18446744073709551616).toNat

/-- Modelled from the spec: `Gst::get_hours`, a library function that is not
part of the sources: the time divided by 3600 s, as a `guint`; 99 for
`CLOCK_TIME_NONE`. -/
def get_hours (time : Nat) : Nat :=
  if time = 18446744073709551615 then 99 else (time / 3600000000000) % 4294967296

/-- Modelled from the spec: `Gst::get_minutes`, a library function that is not
part of the sources: the time divided by 60 s, modulo 60; 99 for
`CLOCK_TIME_NONE`. -/
def get_minutes (time : Nat) : Nat :=
  if time = 18446744073709551615 then 99 else (time / 60000000000) % 60

/-- Modelled from the spec: `Gst::get_seconds`, a library function that is not
part of the sources: the time divided by 1 s, modulo 60; 99 for
`CLOCK_TIME_NONE`. -/
def get_seconds (time : Nat) : Nat :=
  if time = 18446744073709551615 then 99 else (time / 1000000000) % 60

/-- Modelled from the spec: `Gst::get_fractional_seconds`, a library function
that is not part of the sources: the time modulo 1 s; 999999999 for
`CLOCK_TIME_NONE`. -/
def get_fractional_seconds (time : Nat) : Nat :=
  if time = 18446744073709551615 then 999999999 else time % 1000000000

/-- The default URI every `main` starts from. -/
def default_uri : String :=
  "https://gstreamer.freedesktop.org/data/media/sintel_trailer-480p.webm"

/-- The command-line handling shared by the three `main` functions: the URI
that is played and what is printed. `argv` holds the program name first;
`uri_is_valid` is `Gst::URIHandler::uri_is_valid`. -/
def choose_uri (argv : List String) (uri_is_valid : String → Bool) : String × List Act :=
  if argv.length < 2 then
    (default_uri,
      [Act.cout ("Usage: " ++ argv.headD "" ++ " <uri>\n"),
       Act.cout "missing uri argument, use default uri instead.\n"])
  else if uri_is_valid (argv.getD 1 "") then (argv.getD 1 "", [])
  else (default_uri, [])

/-- The text both branches of the `MESSAGE_ERROR` case print (the `RefPtr` of a
dispatched message is never empty, so the `else` branch is not modelled). -/
def error_report (message : Message) : List Act :=
  [Act.cerr ("Error received from element " ++ message.source.name ++ ": "
      ++ message.error_what ++ "\n")]
  ++ (if message.debug_info.isEmpty then []
      else [Act.cout ("Debugging information: " ++ message.debug_info ++ "\n")])

/-- The line printed on a state change of the top-level element. -/
def state_changed_report (message : Message) : Act :=
  Act.cout ("Pipeline state changed: " ++ state_get_name message.old_state ++ " -> "
    ++ state_get_name message.new_state ++ "\n")

/-! ## basic-tutorial-3.cpp -/

namespace Basic03

/-- A source pad announced by `pad-added`: its identity, its name, and the
name of the first structure of its current caps when it has caps
(`get_current_caps` answers an empty `RefPtr` otherwise). -/
structure Pad where
  id : Nat
  name : String
  current_caps : Option String
  deriving DecidableEq, Repr

/-- What the callbacks of the program act on: whether `mainloop->quit()` has
not been called yet, the peer of the sink pad of `convert` (`none` while the
pad is not linked), and the effect log. -/
structure Ctl where
  mainloop_running : Bool
  sink_peer : Option Nat
  log : List Act
  deriving DecidableEq, Repr

/-- Append effects to the log. -/
def Ctl.emit (s : Ctl) (acts : List Act) : Ctl :=
  { s with log := s.log ++ acts }

/-- Source: `on_bus_message` (lines 15-67). -/
def on_bus_message (s : Ctl) (message : Message) : Bool × Ctl :=
  match message.message_type with
  | .EOS =>
    (false, { s.emit [Act.cout "\nEnd of stream\n", Act.mainloop_quit] with
                mainloop_running := false })
  | .ERROR =>
    (false, { s.emit (error_report message ++ [Act.mainloop_quit]) with
                mainloop_running := false })
  | .STATE_CHANGED =>
    if "test-pipeline" = message.source.name then
      (true, s.emit [state_changed_report message])
    else (true, s)
  | _ => (true, s)

/-- Modelled from the spec: the effect of `Gst::Pad::link` on the sink pad, a
library function that is not part of the sources: the pad gets the new peer
exactly when the answer is `PAD_LINK_OK`. -/
def pad_link_effect (sink_peer : Option Nat) (new_pad : Nat) (ret : PadLinkReturn) :
    Option Nat :=
  if ret = PadLinkReturn.OK then some new_pad else sink_peer

/-- Source: the `pad-added` lambda of `main` (lines 130-158). `convert` is the
captured converter, `sink_pad` the identity of its static sink pad and `ret`
what `new_pad->link(sink_pad)` answers if the link is attempted. The result is
`none` when the lambda dereferences the empty caps of a pad without caps. -/
def on_pad_added (convert : GstObject) (sink_pad : Nat) (s : Ctl) (new_pad : Pad)
    (ret : PadLinkReturn) : Option Ctl :=
  let s1 := s.emit [Act.get_static_pad convert.id "sink"]
  if s1.sink_peer.isSome then
    some (s1.emit [Act.cout "sink pad of convert is already linked. Ignoring.\n"])
  else
    let s2 := s1.emit [Act.get_current_caps new_pad.id]
    match new_pad.current_caps with
    | none => none
    | some media_type =>
      let s3 := s2.emit [Act.cout ("Received new pad " ++ new_pad.name ++ ", media type: "
        ++ media_type ++ "\n")]
      if str_has_prefix media_type "audio/x-raw" then
        let s4 := { s3.emit [Act.pad_link new_pad.id sink_pad] with
                      sink_peer := pad_link_effect s3.sink_peer new_pad.id ret }
        if ret ≠ PadLinkReturn.OK ∧ ret ≠ PadLinkReturn.WAS_LINKED then
          some (s4.emit [Act.cerr ("Linking of pads " ++ new_pad.name ++ " and sink failed.\n")])
        else some s4
      else
        some (s3.emit [Act.cout "Media type is not raw audio. Ignoring.\n"])

/-- What can reach the program while the loop runs: a bus message, or a
`pad-added` signal of the source with the answer a link attempt would get. -/
inductive Ev where
  | bus (message : Message)
  | pad_added (new_pad : Pad) (ret : PadLinkReturn)
  deriving DecidableEq, Repr

/-- What `main` gets from outside before the loop starts: the command line,
the URI validator, the four elements the factory returns (if any), the
identity of the pipeline and of the sink pad of `convert`, the index and text
of the first `add` and of the first `link` that throws (if any), and the
answer to the request for PLAYING. -/
structure Startup where
  argv : List String
  uri_is_valid : String → Bool
  source : Option GstObject
  convert : Option GstObject
  resample : Option GstObject
  sink : Option GstObject
  pipeline_id : Nat
  convert_sink_pad : Nat
  add_throws : Option (Nat × String)
  link_throws : Option (Nat × String)
  play_ret : StateChangeReturn

/-- Source: `mainloop->run()` with the bus watch installed by `main` and the
`pad-added` lambda connected. The loop runs until `mainloop->quit()` has been
called; a bus handler that answers `false` is disconnected. The result is
`none` when the `pad-added` lambda dereferences empty caps. -/
def mainloop_run (convert : GstObject) (sink_pad : Nat) : Ctl → Bool → List Ev → Option Ctl
  | s, _, [] => some s
  | s, watch, Ev.bus message :: evs =>
    if watch then
      let r := on_bus_message s message
      if r.2.mainloop_running then mainloop_run convert sink_pad r.2 r.1 evs else some r.2
    else mainloop_run convert sink_pad s watch evs
  | s, watch, Ev.pad_added new_pad ret :: evs =>
    match on_pad_added convert sink_pad s new_pad ret with
    | none => none
    | some s1 => mainloop_run convert sink_pad s1 watch evs

/-- The calls `pipeline->add(source)->add(convert)->add(resample)->add(sink)`
makes, up to and including the one numbered `stop`, which throws. -/
def add_calls (pipeline : Nat) (elements : List Nat) (stop : Option Nat) : List Act :=
  (elements.take ((stop.map (fun n => n + 1)).getD elements.length)).map (Act.bin_add pipeline)

/-- The calls `convert->link(resample)->link(sink)` makes, up to and including
the one numbered `stop`, which throws. -/
def link_calls (convert resample sink : Nat) (stop : Option Nat) : List Act :=
  [Act.element_link convert resample, Act.element_link resample sink].take
    ((stop.map (fun n => n + 1)).getD 2)

/-- Source: `main` (lines 69-183). The result is how the run ends and the
final state (the state before the loop when the `pad-added` lambda
dereferences empty caps). -/
def main (env : Startup) (evs : List Ev) : Outcome × Ctl :=
  let uri := choose_uri env.argv env.uri_is_valid
  let s0 : Ctl := { mainloop_running := true, sink_peer := none, log := uri.2 }
  match env.source, env.convert, env.resample, env.sink with
  | some source, some convert, some resample, some sink =>
    let s1 := s0.emit (add_calls env.pipeline_id [source.id, convert.id, resample.id, sink.id]
      (env.add_throws.map Prod.fst))
    match env.add_throws with
    | some ex =>
      (Outcome.exit EXIT_FAILURE,
        s1.emit [Act.cerr ("Exception while adding: " ++ ex.2 ++ "\n")])
    | none =>
      let s2 := s1.emit (link_calls convert.id resample.id sink.id (env.link_throws.map Prod.fst))
      let s3 := match env.link_throws with
        | some ex => s2.emit [Act.cout ("Exception while linking elements: " ++ ex.2 ++ "\n")]
        | none => s2
      let s4 := s3.emit [Act.set_property source.id "uri" uri.1,
                         Act.set_state env.pipeline_id State.PLAYING]
      if env.play_ret = StateChangeReturn.FAILURE then
        (Outcome.exit EXIT_FAILURE,
          s4.emit [Act.cerr "Unable to set the pipeline to the playing state.\n"])
      else
        let s5 := s4.emit [Act.cout "Running.\n"]
        match mainloop_run convert env.convert_sink_pad s5 true evs with
        | none => (Outcome.fault, s5)
        | some s6 =>
          if s6.mainloop_running then (Outcome.running, s6)
          else
            (Outcome.exit EXIT_SUCCESS,
              s6.emit [Act.cout "Returned. Stopping pipeline.\n",
                       Act.set_state env.pipeline_id State.NULL])
  | _, _, _, _ =>
    (Outcome.exit EXIT_FAILURE,
      s0.emit [Act.cerr "One of the elements could not be created.\n"])

end Basic03

/-! ## dynamic_src.cpp -/

namespace DynamicSrc

/-- What the callbacks of the program act on: whether `mainloop->quit()` has
not been called yet, the function-local static `pattern`, the file-scope
handles `source`, `sink` and `pipeline`, the graph the pipeline holds (its
elements, the links between them as pairs of upstream and downstream
element, and the state last requested on each element), and the effect
log. -/
structure Ctl where
  mainloop_running : Bool
  pattern : Int
  source : GstObject
  sink : GstObject
  pipeline : GstObject
  children : List Nat
  links : List (Nat × Nat)
  states : List (Nat × State)
  log : List Act
  deriving DecidableEq, Repr

/-- Append effects to the log. -/
def Ctl.emit (s : Ctl) (acts : List Act) : Ctl :=
  { s with log := s.log ++ acts }

/-- Source: `on_bus_message` (lines 23-76). -/
def on_bus_message (s : Ctl) (message : Message) : Bool × Ctl :=
  match message.message_type with
  | .EOS =>
    (false, { s.emit [Act.cout "\nEnd of stream\n", Act.mainloop_quit] with
                mainloop_running := false })
  | .ERROR =>
    (false, { s.emit (error_report message ++ [Act.mainloop_quit]) with
                mainloop_running := false })
  | .STATE_CHANGED =>
    if "test-pipeline" = message.source.name then
      (true, s.emit [state_changed_report message])
    else (true, s)
  | _ => (true, s)

/-- The state in which `main` enters the loop after a start without failure
(lines 103-145): the static `pattern` has its initialiser 0 (line 80), the
pipeline holds the source linked to the sink, and PLAYING has been requested
on the pipeline. -/
def Ctl.init (source sink pipeline : GstObject) : Ctl :=
  { mainloop_running := true, pattern := 0, source := source, sink := sink,
    pipeline := pipeline, children := [source.id, sink.id],
    links := [(source.id, sink.id)], states := [(pipeline.id, State.PLAYING)],
    log := [Act.bin_add pipeline.id source.id, Act.bin_add pipeline.id sink.id,
            Act.element_link source.id sink.id,
            Act.set_property_int source.id "pattern" 0,
            Act.set_state pipeline.id State.PLAYING, Act.cout "Running.\n"] }

/-- Modelled from the spec: conversion of an integer to the C++ type `int`
(32 bits, two's complement), which the sources use for `pattern`. -/
def to_int32 (x : Int) : Int :=
  if x % 4294967296 < 2147483648 then x % 4294967296 else x % 4294967296 - 4294967296

/-- Source: `pattern = (pattern < 25) ? (pattern + 1) : 0;` (line 86). -/
def next_pattern (pattern : Int) : Int :=
  if pattern < 25 then to_int32 (pattern + 1) else 0

/-- Modelled from the spec: the state last requested on an element, NULL for
an element on which no state was requested yet. -/
def state_of (states : List (Nat × State)) (element : Nat) : State :=
  ((states.find? (fun e => e.1 == element)).map Prod.snd).getD State.NULL

/-- Modelled from the spec: the effect of `Gst::Element::set_state`, a library
function that is not part of the sources, on the graph: the element has the
state requested. -/
def request_state (s : Ctl) (element : Nat) (target : State) : Ctl :=
  { s.emit [Act.set_state element target] with
    states := (element, target) :: s.states.filter (fun e => e.1 != element) }

/-- Modelled from the spec: the effect of a successful `Gst::Bin::remove`, a
library function that is not part of the sources: the element leaves the
pipeline and the links of its pads are undone. -/
def remove_node (s : Ctl) (element : Nat) : Ctl :=
  { s.emit [Act.bin_remove s.pipeline.id element] with
    children := s.children.filter (fun e => e != element),
    links := s.links.filter (fun l => l.1 != element && l.2 != element) }

/-- Modelled from the spec: the effect of a successful `Gst::Bin::add`, a
library function that is not part of the sources: the pipeline holds the
element. -/
def add_node (s : Ctl) (element : Nat) : Ctl :=
  { s.emit [Act.bin_add s.pipeline.id element] with children := s.children ++ [element] }

/-- Modelled from the spec: the effect of a successful `Gst::Element::link`, a
library function that is not part of the sources: there is a link from the
first element to the second. -/
def link_nodes (s : Ctl) (src dst : Nat) : Ctl :=
  { s.emit [Act.element_link src dst] with links := s.links ++ [(src, dst)] }

/-- What the library answers to the calls of one `on_timeout`: the element
the factory returns (if any), and whether `remove`, `add` and `link` succeed
(they throw `std::runtime_error` otherwise). -/
structure Answers where
  created : Option GstObject
  remove_ok : Bool
  add_ok : Bool
  link_ok : Bool
  deriving DecidableEq, Repr

/-- Source: `on_timeout` (lines 78-95). The result is `none` when the call
does not return: a library call throws (nothing in the program catches it),
or the empty `RefPtr` of a failed `create_element` is dereferenced. -/
def on_timeout (s : Ctl) (a : Answers) : Option (Bool × Ctl) :=
  let s1 := request_state s s.source.id State.NULL
  if a.remove_ok then
    let s2 := remove_node s1 s1.source.id
    let s3 := s2.emit [Act.create_element "videotestsrc" "source"]
    match a.created with
    | none => none
    | some created =>
      let s4 := { s3 with source := created, pattern := next_pattern s3.pattern }
      let s5 := s4.emit [Act.set_property_int s4.source.id "pattern" s4.pattern,
                         Act.set_property_bool s4.source.id "is_live" true]
      if a.add_ok then
        let s6 := add_node s5 s5.source.id
        if a.link_ok then
          let s7 := link_nodes s6 s6.source.id s6.sink.id
          some (true, request_state s7 s7.source.id State.PLAYING)
        else none
      else none
  else none

/-- The timer of 1000 ms firing once per element of `answers`, as long as the
calls return. -/
def on_timeout_all : Ctl → List Answers → Option Ctl
  | s, [] => some s
  | s, a :: answers =>
    match on_timeout s a with
    | none => none
    | some r => on_timeout_all r.2 answers

end DynamicSrc

/-! ## basic-tutorial-4.cpp -/

namespace Basic04

/-- The file-scope variables `playing`, `seekable`, `seek_done`, `duration`,
whether `mainloop->quit()` has not been called yet, and the effect log. -/
structure Ctl where
  playing : Bool
  seekable : Bool
  seek_done : Bool
  duration : Int
  mainloop_running : Bool
  log : List Act
  deriving DecidableEq, Repr

/-- The initialisers of lines 21-24. -/
def Ctl.init : Ctl :=
  { playing := false, seekable := false, seek_done := false,
    duration := CLOCK_TIME_NONE, mainloop_running := true, log := [] }

/-- Append effects to the log. -/
def Ctl.emit (s : Ctl) (acts : List Act) : Ctl :=
  { s with log := s.log ++ acts }

/-- Source: `format_gst_time` (lines 26-36). The result is the stream; its
text is `(format_gst_time t).str`. -/
def format_gst_time (gst_time : Int) : OStream :=
  ((((((((((((((OStream.empty.set_adjust Adjust.right).setfill '0').setw 3).put_uint
    (get_hours (to_clock_time gst_time))).put ":".toList).setw 2).put_uint
    (get_minutes (to_clock_time gst_time))).put ":".toList).setw 2).put_uint
    (get_seconds (to_clock_time gst_time))).put ".".toList).setw 9).set_adjust
    Adjust.left).put_uint (get_fractional_seconds (to_clock_time gst_time)))

/-- Source: `on_bus_message` (lines 39-112). `seeking` is what the playbin
answers if the seeking query is made. -/
def on_bus_message (playbin : GstObject) (s : Ctl) (message : Message)
    (seeking : SeekingReply) : Bool × Ctl :=
  match message.message_type with
  | .EOS =>
    (false, { s.emit [Act.cout "\nEnd of stream\n", Act.mainloop_quit] with
                mainloop_running := false })
  | .ERROR =>
    (false, { s.emit (error_report message ++ [Act.mainloop_quit]) with
                mainloop_running := false })
  | .DURATION_CHANGED =>
    (true, { s with duration := CLOCK_TIME_NONE })
  | .STATE_CHANGED =>
    if message.source.id = playbin.id then
      let s1 := s.emit [state_changed_report message]
      let s2 := { s1 with playing := decide (message.new_state = State.PLAYING) }
      if s2.playing then
        let s3 := s2.emit [Act.query_seeking playbin.id]
        if seeking.ok then
          let s4 := { s3 with seekable := seeking.seekable }
          if s4.seekable then
            (true, s4.emit [Act.cout_seeking_enabled seeking.segment_start seeking.segment_end])
          else
            (true, s4.emit [Act.cout "Seeking is DISABLED for this stream.\n"])
        else (true, s3)
      else (true, s2)
    else (true, s)
  | _ => (true, s)

/-- Source: `on_timeout` (lines 114-145). `pos` and `dur` are what the playbin
answers if the position and the duration query are made. -/
def on_timeout (playbin : GstObject) (s : Ctl) (pos dur : QueryReply) : Bool × Ctl :=
  if s.playing then
    let s1 := s.emit [Act.query_position playbin.id]
    let position := pos.value
    let s2 := if pos.ok then s1 else s1.emit [Act.cerr "Could not query current position.\n"]
    let s3 :=
      if s2.duration = CLOCK_TIME_NONE then
        let t := { s2.emit [Act.query_duration playbin.id] with duration := dur.value }
        if dur.ok then t else t.emit [Act.cerr "Could not query current duration.\n"]
      else s2
    let s4 := s3.emit [Act.cout_position position s3.duration]
    if s4.seekable && !s4.seek_done && decide (position > 10 * SECOND) then
      (true, { s4.emit [Act.cout "Reached 10s, performing seek...\n",
                        Act.seek playbin.id (30 * SECOND)] with seek_done := true })
    else (true, s4)
  else (true, s)

/-- What the dispatch loop can deliver to the controller: a bus message or a
tick of the 100 ms timer, each with the answers the playbin would give. -/
inductive Ev where
  | bus (message : Message) (seeking : SeekingReply)
  | tick (pos dur : QueryReply)
  deriving DecidableEq, Repr

/-- Dispatch one event to its handler. -/
def dispatch (playbin : GstObject) (s : Ctl) : Ev → Ctl
  | .bus message seeking => (on_bus_message playbin s message seeking).2
  | .tick pos dur => (on_timeout playbin s pos dur).2

/-- Dispatch a sequence of events, in order. -/
def dispatch_all (playbin : GstObject) (s : Ctl) (evs : List Ev) : Ctl :=
  evs.foldl (dispatch playbin) s

/-- What `main` gets from outside before the loop starts: the command line,
the URI validator, the element the factory returns (if any) and the answer
to the request for PLAYING. -/
structure Startup where
  argv : List String
  uri_is_valid : String → Bool
  playbin : Option GstObject
  play_ret : StateChangeReturn

/-- Source: `mainloop->run()` with the bus watch and the timer installed by
`main`. The loop delivers events until `mainloop->quit()` has been called; a
handler that answers `false` is disconnected, and what it would have
received is dropped. -/
def mainloop_run (playbin : GstObject) : Ctl → Bool → Bool → List Ev → Ctl
  | s, _, _, [] => s
  | s, watch, timer, Ev.bus message seeking :: evs =>
    if watch then
      let r := on_bus_message playbin s message seeking
      if r.2.mainloop_running then mainloop_run playbin r.2 r.1 timer evs else r.2
    else mainloop_run playbin s watch timer evs
  | s, watch, timer, Ev.tick pos dur :: evs =>
    if timer then
      let r := on_timeout playbin s pos dur
      if r.2.mainloop_running then mainloop_run playbin r.2 watch r.1 evs else r.2
    else mainloop_run playbin s watch timer evs

/-- Source: `main` (lines 147-203). The result is how the run ends and the
final state. -/
def main (env : Startup) (evs : List Ev) : Outcome × Ctl :=
  let uri := choose_uri env.argv env.uri_is_valid
  let s0 := Ctl.init.emit uri.2
  match env.playbin with
  | none =>
    (Outcome.exit EXIT_FAILURE,
      s0.emit [Act.cerr "The playbin element could not be created.\n"])
  | some playbin =>
    let s1 := s0.emit [Act.set_property playbin.id "uri" uri.1,
                       Act.set_state playbin.id State.PLAYING]
    if env.play_ret = StateChangeReturn.FAILURE then
      (Outcome.exit EXIT_FAILURE,
        s1.emit [Act.cerr "Unable to set the pipeline to the playing state.\n"])
    else
      let s2 := mainloop_run playbin (s1.emit [Act.cout "Running.\n"]) true true evs
      if s2.mainloop_running then (Outcome.running, s2)
      else
        (Outcome.exit EXIT_SUCCESS,
          s2.emit [Act.cout "Returned. Stopping pipeline.\n",
                   Act.set_state playbin.id State.NULL])

end Basic04

/-! ## basic-tutorial-5.cpp -/

namespace Basic05

/-- What one tag list yields for the tags the window prints. -/
structure TagList where
  codec : String
  language : String
  bitrate : Nat
  deriving DecidableEq, Repr

/-- What the playbin reports to `analyze_streams`: per video, audio and
subtitle stream the tag list, if the stream has one. -/
structure StreamTags where
  video : List (Option TagList)
  audio : List (Option TagList)
  text : List (Option TagList)
  deriving DecidableEq, Repr

/-- The members of `PlayerWindow` the callbacks read or write, the text of
`streams_list`, and the effect log. -/
structure PlayerWindow where
  stream_state : State
  stream_duration : Int
  streams_list : String
  log : List Act
  deriving DecidableEq, Repr

/-- Append effects to the log. -/
def PlayerWindow.emit (w : PlayerWindow) (acts : List Act) : PlayerWindow :=
  { w with log := w.log ++ acts }

/-- Source: the constructor (lines 110-172), as far as the tracked members
go: the member initialisers and the request for PLAYING. -/
def PlayerWindow.create (playbin : GstObject) (play_ret : StateChangeReturn) : PlayerWindow :=
  let w : PlayerWindow :=
    { stream_state := State.NULL, stream_duration := CLOCK_TIME_NONE,
      streams_list := "", log := [Act.set_state playbin.id State.PLAYING] }
  if play_ret = StateChangeReturn.FAILURE then
    w.emit [Act.cerr "Unable to set the pipeline to the playing state.\n", Act.window_close]
  else w

/-- Source: `PlayerWindow::on_tags_changed` (lines 191-196). -/
def on_tags_changed (playbin : GstObject) (w : PlayerWindow) : PlayerWindow :=
  w.emit [Act.post_application playbin.id "tag-changed"]

/-- Source: `PlayerWindow::on_button_play` (lines 240-243). -/
def on_button_play (playbin : GstObject) (w : PlayerWindow) : PlayerWindow :=
  w.emit [Act.set_state playbin.id State.PLAYING]

/-- Source: `PlayerWindow::on_button_pause` (lines 247-250). -/
def on_button_pause (playbin : GstObject) (w : PlayerWindow) : PlayerWindow :=
  w.emit [Act.set_state playbin.id State.PAUSED]

/-- Source: `PlayerWindow::on_button_stop` (lines 254-257). -/
def on_button_stop (playbin : GstObject) (w : PlayerWindow) : PlayerWindow :=
  w.emit [Act.set_state playbin.id State.READY]

/-- The `gint64(value * Gst::SECOND)` of line 265: `Gst::SECOND` is unsigned,
so the product is taken modulo 2^64 and read back as a signed value. -/
def seek_target (value : Int) : Int :=
  let u := (value * SECOND) % 2 ^ 64
  if u < 2 ^ 63 then u else u - 2 ^ 64

/-- Source: `PlayerWindow::on_slider_value_changed` (lines 262-266). `value`
is the slider position after the cast to `gint64`. -/
def on_slider_value_changed (playbin : GstObject) (w : PlayerWindow) (value : Int) :
    PlayerWindow :=
  w.emit [Act.seek playbin.id (seek_target value)]

/-- Source: `PlayerWindow::refresh_ui` (lines 269-298). `dur` and `pos` are
what the playbin answers if the duration and the position query are made. -/
def refresh_ui (playbin : GstObject) (w : PlayerWindow) (dur pos : QueryReply) :
    Bool × PlayerWindow :=
  let w0 := w.emit [Act.enter_refresh_ui]
  if w0.stream_state.toNat < State.PAUSED.toNat then (true, w0)
  else
    let w1 :=
      if w0.stream_duration = CLOCK_TIME_NONE then
        let t := { w0.emit [Act.query_duration playbin.id] with stream_duration := dur.value }
        if dur.ok then t.emit [Act.slider_set_range t.stream_duration]
        else t.emit [Act.cerr "Could not query current duration.\n"]
      else w0
    let w2 := w1.emit [Act.query_position playbin.id]
    if pos.ok then (true, w2.emit [Act.slider_set_value pos.value]) else (true, w2)

/-- The text `analyze_streams` inserts for the streams of one kind: one entry
per stream that has a tag list, numbered by the index of the stream. -/
def stream_entries (entry : Nat → TagList → String) (tags : List (Option TagList)) : String :=
  tags.enum.foldl
    (fun acc it => match it.2 with
      | some t => acc ++ entry it.1 t
      | none => acc) ""

/-- Source: `PlayerWindow::analyze_streams` (lines 301-370). -/
def analyze_streams (w : PlayerWindow) (tags : StreamTags) : PlayerWindow :=
  let video := stream_entries (fun i t =>
    "Video stream " ++ toString i ++ ":\n    codec: " ++ t.codec ++ "\n") tags.video
  let audio := stream_entries (fun i t =>
    "Audio stream " ++ toString i ++ ":\n    codec: " ++ t.codec ++ "\n    language: "
      ++ t.language ++ "\n    bitrate: " ++ toString t.bitrate ++ "\n") tags.audio
  let text := stream_entries (fun i t =>
    "Subtitle stream " ++ toString i ++ ":\n    language: " ++ t.language ++ "\n") tags.text
  { w.emit [Act.enter_analyze_streams] with streams_list := video ++ audio ++ text }

/-- Source: `PlayerWindow::on_bus_message` (lines 373-435). `dur`, `pos` and
`tags` are what the playbin answers to the calls the handler may make. -/
def on_bus_message (playbin : GstObject) (w : PlayerWindow) (message : Message)
    (dur pos : QueryReply) (tags : StreamTags) : Bool × PlayerWindow :=
  match message.message_type with
  | .EOS => (false, on_button_stop playbin (w.emit [Act.cout "\nEnd of stream\n"]))
  | .ERROR => (false, on_button_stop playbin (w.emit (error_report message)))
  | .STATE_CHANGED =>
    if message.source.id = playbin.id then
      let w1 := { w.emit [state_changed_report message] with stream_state := message.new_state }
      if message.old_state = State.READY ∧ message.new_state = State.PAUSED then
        (true, (refresh_ui playbin w1 dur pos).2)
      else (true, w1)
    else (true, w)
  | .APPLICATION =>
    if "tag-changed" = message.structure_name then (true, analyze_streams w tags)
    else (true, w)
  | _ => (true, w)

/-- What the GTK loop can deliver to the window: a bus message, a tick of the
500 ms timer, a change of the slider by the user, a click on one of the
buttons, or a tags-changed signal of the playbin. -/
inductive Ev where
  | bus (message : Message) (dur pos : QueryReply) (tags : StreamTags)
  | tick (dur pos : QueryReply)
  | slider (value : Int)
  | play
  | pause
  | stop
  | tags_changed
  deriving DecidableEq, Repr

/-- Dispatch one event to its callback. -/
def dispatch (playbin : GstObject) (w : PlayerWindow) : Ev → PlayerWindow
  | .bus message dur pos tags => (on_bus_message playbin w message dur pos tags).2
  | .tick dur pos => (refresh_ui playbin w dur pos).2
  | .slider value => on_slider_value_changed playbin w value
  | .play => on_button_play playbin w
  | .pause => on_button_pause playbin w
  | .stop => on_button_stop playbin w
  | .tags_changed => on_tags_changed playbin w

/-- Dispatch a sequence of events, in order. -/
def dispatch_all (playbin : GstObject) (w : PlayerWindow) (evs : List Ev) : PlayerWindow :=
  evs.foldl (dispatch playbin) w

end Basic05

/-! ## Observations on the effect log -/

/-- Whether an effect is a seeking-capability query. -/
def Act.is_query_seeking : Act → Bool
  | .query_seeking _ => true
  | _ => false

/-- Whether an effect is a duration query. -/
def Act.is_query_duration : Act → Bool
  | .query_duration _ => true
  | _ => false

/-- Whether an effect is a seek request. -/
def Act.is_seek : Act → Bool
  | .seek _ _ => true
  | _ => false

/-- Number of seeking-capability queries in a log. -/
def seeking_queries (log : List Act) : Nat := log.countP Act.is_query_seeking

/-- Number of duration queries in a log. -/
def duration_queries (log : List Act) : Nat := log.countP Act.is_query_duration

/-- Number of seek requests in a log. -/
def seek_requests (log : List Act) : Nat := log.countP Act.is_seek

/-- Whether an event is a StateChanged message of the playbin whose new state
is PLAYING. -/
def Basic04.is_playing_report (playbin : GstObject) : Basic04.Ev → Bool
  | .bus message _ =>
    decide (message.message_type = MessageType.STATE_CHANGED) &&
      decide (message.source.id = playbin.id) &&
      decide (message.new_state = State.PLAYING)
  | .tick _ _ => false

/-- The value of `seekable` after an event, as the amended C4 states it: the
value the playbin reports when the event is a StateChanged message of the
playbin to PLAYING and the seeking query succeeds, the value before
otherwise. -/
def Basic04.seekable_after (playbin : GstObject) (s : Basic04.Ctl) : Basic04.Ev → Bool
  | .bus message seeking =>
    if Basic04.is_playing_report playbin (.bus message seeking) && seeking.ok then
      seeking.seekable
    else s.seekable
  | .tick _ _ => s.seekable

/-- Whether an event is a DurationChanged message. -/
def Basic04.is_duration_changed : Basic04.Ev → Bool
  | .bus message _ => decide (message.message_type = MessageType.DURATION_CHANGED)
  | .tick _ _ => false

/-- Number of ticks in `evs` that find `playing` set when the events are
dispatched in order from `s`. -/
def Basic04.playing_ticks (playbin : GstObject) : Basic04.Ctl → List Basic04.Ev → Nat
  | _, [] => 0
  | s, Basic04.Ev.tick pos dur :: evs =>
    (if s.playing then 1 else 0) +
      Basic04.playing_ticks playbin (Basic04.dispatch playbin s (.tick pos dur)) evs
  | s, Basic04.Ev.bus message seeking :: evs =>
    Basic04.playing_ticks playbin (Basic04.dispatch playbin s (.bus message seeking)) evs

/-! ## Concrete inputs -/

/-- A playbin for the concrete runs below. -/
def the_playbin : GstObject := ⟨1, "playbin"⟩

/-- StateChanged of the playbin, PAUSED to PLAYING. -/
def playbin_to_playing : Message :=
  ⟨MessageType.STATE_CHANGED, the_playbin, "", "", State.PAUSED, State.PLAYING, ""⟩

/-- StateChanged of the playbin, PLAYING to PAUSED. -/
def playbin_to_paused : Message :=
  ⟨MessageType.STATE_CHANGED, the_playbin, "", "", State.PLAYING, State.PAUSED, ""⟩

/-- A state of basic-tutorial-4 in the middle of playback: playing, seekable,
duration known to be 52 s. -/
def playing_52s : Basic04.Ctl :=
  { playing := true, seekable := true, seek_done := false, duration := 52 * SECOND,
    mainloop_running := true, log := [] }

/-- A DurationChanged message of a child element. -/
def duration_changed : Message :=
  ⟨MessageType.DURATION_CHANGED, ⟨2, "decoder"⟩, "", "", State.NULL, State.NULL, ""⟩

/-- A StateChanged message of a child element. -/
def child_to_playing : Message :=
  ⟨MessageType.STATE_CHANGED, ⟨2, "decoder"⟩, "", "", State.PAUSED, State.PLAYING, ""⟩

/-- A start of basic-tutorial-3 in which every step succeeds and the request
for PLAYING answers ASYNC. -/
def startup_03 : Basic03.Startup :=
  { argv := ["basic-tutorial-3"], uri_is_valid := fun _ => true,
    source := some ⟨10, "source"⟩, convert := some ⟨3, "convert"⟩,
    resample := some ⟨11, "resample"⟩, sink := some ⟨12, "sink"⟩,
    pipeline_id := 1, convert_sink_pad := 5, add_throws := none, link_throws := none,
    play_ret := StateChangeReturn.ASYNC }

/-- A start of basic-tutorial-4 in which the playbin is created and the
request for PLAYING answers ASYNC. -/
def startup_04 : Basic04.Startup :=
  { argv := ["basic-tutorial-4"], uri_is_valid := fun _ => true,
    playbin := some ⟨1, "playbin"⟩, play_ret := StateChangeReturn.ASYNC }

/-- The invariant behind "at most one seek": at most one seek request has
been made, and none as long as `seek_done` is false. -/
def Basic04.seek_inv (s : Basic04.Ctl) : Prop :=
  seek_requests s.log ≤ 1 ∧ (s.seek_done = false → seek_requests s.log = 0)

/-- A window of basic-tutorial-5 in the middle of playback: PLAYING, duration
known to be 52 s. -/
def window_52s : Basic05.PlayerWindow :=
  { stream_state := State.PLAYING, stream_duration := 52 * SECOND, streams_list := "",
    log := [] }

/-- Whether an effect is an attempt to link two pads. -/
def Act.is_pad_link : Act → Bool
  | .pad_link _ _ => true
  | _ => false

/-- A state of basic-tutorial-3 before any pad has been linked to `convert`. -/
def unlinked : Basic03.Ctl :=
  { mainloop_running := true, sink_peer := none, log := [] }

/-- A state of basic-tutorial-3 in which pad 7 is linked to `convert`. -/
def linked_to_7 : Basic03.Ctl :=
  { mainloop_running := true, sink_peer := some 7, log := [] }

/-- The converter of the concrete runs. -/
def the_convert : GstObject := ⟨3, "convert"⟩

/-- A new pad that carries subtitles. -/
def subtitle_pad : Basic03.Pad := ⟨8, "src_1", some "text/x-subtitle"⟩

/-- A new pad that carries raw audio. -/
def audio_pad : Basic03.Pad := ⟨9, "src_0", some "audio/x-raw"⟩

/-- An Error message of a child element. -/
def stream_error : Message :=
  ⟨MessageType.ERROR, ⟨2, "decoder"⟩, "no decoder available", "", State.NULL, State.NULL,
    ""⟩


/-! ## Observations for the later claims -/

/-- Modelled from the spec: what `query_position` and `query_duration`, library
functions that are not part of the sources, leave in their `gint64&`
out-parameter when they fail: the value it had (`old`), or
`CLOCK_TIME_NONE`. The reply `reply` respects this when the function
answers `true`. -/
def failed_query_keeps (old : Int) (reply : QueryReply) : Bool :=
  reply.ok || decide (reply.value = old) || decide (reply.value = CLOCK_TIME_NONE)

/-- Whether an effect is a request for a state transition. -/
def Act.is_set_state : Act → Bool
  | .set_state _ _ => true
  | _ => false

/-- Whether an effect is a call of `mainloop->quit()`. -/
def Act.is_mainloop_quit : Act → Bool
  | .mainloop_quit => true
  | _ => false

/-- Whether an effect is an entry into `analyze_streams`. -/
def Act.is_enter_analyze_streams : Act → Bool
  | .enter_analyze_streams => true
  | _ => false

/-- Whether an event of basic-tutorial-5 is an Application message whose
structure is named "tag-changed". -/
def Basic05.is_tag_changed : Basic05.Ev → Bool
  | .bus message _ _ _ =>
    decide (message.message_type = MessageType.APPLICATION) &&
      decide ("tag-changed" = message.structure_name)
  | _ => false

/-- The text of `streams_list` after an event, as C12 states it: rebuilt by
`analyze_streams` at an Application message named "tag-changed", the text
before otherwise. -/
def Basic05.streams_list_after (w : Basic05.PlayerWindow) : Basic05.Ev → String
  | .bus message dur pos tags =>
    if Basic05.is_tag_changed (.bus message dur pos tags) then
      (Basic05.analyze_streams w tags).streams_list
    else w.streams_list
  | _ => w.streams_list

/-- A failed query that leaves `CLOCK_TIME_NONE` in the out-parameter. -/
def failed_reply : QueryReply := ⟨false, CLOCK_TIME_NONE⟩


/-- A state of basic-tutorial-4 during playback, seekable, no seek made yet,
with the duration unknown. -/
def unknown_duration_04 : Basic04.Ctl :=
  { playing := true, seekable := true, seek_done := false, duration := CLOCK_TIME_NONE,
    mainloop_running := true, log := [] }

/-- A window of basic-tutorial-5 in PLAYING with the duration unknown. -/
def unknown_duration_05 : Basic05.PlayerWindow :=
  { stream_state := State.PLAYING, stream_duration := CLOCK_TIME_NONE, streams_list := "",
    log := [] }


/-- Number of links that start or end at an element. -/
def link_count (links : List (Nat × Nat)) (element : Nat) : Nat :=
  links.countP (fun l => l.1 == element || l.2 == element)

/-- Whether every library call of one `on_timeout` succeeds. -/
def DynamicSrc.Answers.succeeds (a : DynamicSrc.Answers) : Bool :=
  a.created.isSome && a.remove_ok && a.add_ok && a.link_ok

/-- The values given to the property "pattern", in the order of the calls. -/
def pattern_values (log : List Act) : List Int :=
  log.filterMap (fun a =>
    match a with
    | .set_property_int _ property value => if property = "pattern" then some value else none
    | _ => none)

/-- The elements of the concrete runs of dynamic_src. -/
def first_source : GstObject := ⟨20, "source"⟩

/-- The sink of the concrete runs of dynamic_src. -/
def video_sink : GstObject := ⟨21, "sink"⟩

/-- The pipeline of the concrete runs of dynamic_src. -/
def test_pipeline : GstObject := ⟨22, "test-pipeline"⟩

/-- Library answers with which a call of `on_timeout` of dynamic_src goes
through: the factory returns the element numbered `id`. -/
def swap_to (id : Nat) : DynamicSrc.Answers :=
  { created := some ⟨id, "source"⟩, remove_ok := true, add_ok := true, link_ok := true }


/-- The state after a call of `on_timeout` of dynamic_src in which every
library call succeeds and the factory returns `created`: the steps of
`on_timeout` one after the other. -/
def DynamicSrc.swapped (s : DynamicSrc.Ctl) (created : GstObject) : DynamicSrc.Ctl :=
  let s1 := DynamicSrc.request_state s s.source.id State.NULL
  let s2 := DynamicSrc.remove_node s1 s1.source.id
  let s3 := s2.emit [Act.create_element "videotestsrc" "source"]
  let s4 := { s3 with source := created, pattern := DynamicSrc.next_pattern s3.pattern }
  let s5 := s4.emit [Act.set_property_int s4.source.id "pattern" s4.pattern,
                     Act.set_property_bool s4.source.id "is_live" true]
  let s6 := DynamicSrc.add_node s5 s5.source.id
  let s7 := DynamicSrc.link_nodes s6 s6.source.id s6.sink.id
  DynamicSrc.request_state s7 s7.source.id State.PLAYING


/-- The number `n` written with `k` decimal digits, with leading zeros (the
digits of `n` modulo `10 ^ k`), as C17 describes the fields of a formatted
time. -/
def zero_padded : Nat → Nat → List Char
  | 0, _ => []
  | k + 1, n => zero_padded k (n / 10) ++ [Nat.digitChar (n % 10)]

/-- A start of basic-tutorial-3 in which linking `convert`, `resample` and
`sink` throws. -/
def startup_link_throws : Basic03.Startup :=
  { argv := ["basic-tutorial-3"], uri_is_valid := fun _ => true,
    source := some ⟨10, "source"⟩, convert := some ⟨3, "convert"⟩,
    resample := some ⟨11, "resample"⟩, sink := some ⟨12, "sink"⟩,
    pipeline_id := 1, convert_sink_pad := 5, add_throws := none,
    link_throws := some (0, "failed to link"), play_ret := StateChangeReturn.ASYNC }

/-- A start of basic-tutorial-3 in which adding the elements throws. -/
def startup_add_throws : Basic03.Startup :=
  { argv := ["basic-tutorial-3"], uri_is_valid := fun _ => true,
    source := some ⟨10, "source"⟩, convert := some ⟨3, "convert"⟩,
    resample := some ⟨11, "resample"⟩, sink := some ⟨12, "sink"⟩,
    pipeline_id := 1, convert_sink_pad := 5, add_throws := some (0, "failed to add"),
    link_throws := none, play_ret := StateChangeReturn.ASYNC }

/-- An EndOfStream message of the pipeline. -/
def end_of_stream : Message :=
  ⟨MessageType.EOS, ⟨1, "test-pipeline"⟩, "", "", State.NULL, State.NULL, ""⟩

/-- A start of basic-tutorial-4 with an argument that is not a valid URI. -/
def startup_invalid_uri : Basic04.Startup :=
  { argv := ["basic-tutorial-4", "sintel.webm"], uri_is_valid := fun _ => false,
    playbin := some ⟨1, "playbin"⟩, play_ret := StateChangeReturn.ASYNC }

/-! ## Theorems -/

/-- C1: a StateChanged message whose source is not the playbin is ignored by
the bus handlers of basic-tutorial-4 and basic-tutorial-5: the handler answers
"continue" and the whole state is the one before the call, so `playing`,
`seekable`, `seek_done`, `duration` (basic-tutorial-4) and `stream_state`,
`stream_duration` (basic-tutorial-5) keep their values and the log gains no
entry: no seeking query is made and `refresh_ui` is not entered. -/
theorem C1_state_changed_of_child_ignored (playbin : GstObject) (message : Message)
    (hkind : message.message_type = MessageType.STATE_CHANGED)
    (hsrc : message.source.id ≠ playbin.id) :
    (∀ (s : Basic04.Ctl) (seeking : SeekingReply),
      Basic04.on_bus_message playbin s message seeking = (true, s)) ∧
    (∀ (w : Basic05.PlayerWindow) (dur pos : QueryReply) (tags : Basic05.StreamTags),
      Basic05.on_bus_message playbin w message dur pos tags = (true, w)) := by
  constructor
  · intro s seeking
    simp [Basic04.on_bus_message, hkind, hsrc]
  · intro w dur pos tags
    simp [Basic05.on_bus_message, hkind, hsrc]

/-- C1, at a message of a child element of the playbin, from the initial
state of basic-tutorial-4 and from a freshly created window of
basic-tutorial-5. -/
theorem C1_state_changed_of_child_ignored_witness :
    Basic04.on_bus_message ⟨1, "playbin"⟩ Basic04.Ctl.init
        ⟨MessageType.STATE_CHANGED, ⟨2, "decoder"⟩, "", "", State.READY, State.PAUSED, ""⟩
        ⟨true, true, 0, 52 * SECOND⟩ = (true, Basic04.Ctl.init) ∧
    Basic05.on_bus_message ⟨1, "playbin"⟩
        (Basic05.PlayerWindow.create ⟨1, "playbin"⟩ StateChangeReturn.ASYNC)
        ⟨MessageType.STATE_CHANGED, ⟨2, "decoder"⟩, "", "", State.READY, State.PAUSED, ""⟩
        ⟨true, 52 * SECOND⟩ ⟨true, 0⟩ ⟨[], [], []⟩ =
      (true, Basic05.PlayerWindow.create ⟨1, "playbin"⟩ StateChangeReturn.ASYNC) :=
  ⟨(C1_state_changed_of_child_ignored ⟨1, "playbin"⟩
      ⟨MessageType.STATE_CHANGED, ⟨2, "decoder"⟩, "", "", State.READY, State.PAUSED, ""⟩
      rfl (by decide)).1 Basic04.Ctl.init ⟨true, true, 0, 52 * SECOND⟩,
   (C1_state_changed_of_child_ignored ⟨1, "playbin"⟩
      ⟨MessageType.STATE_CHANGED, ⟨2, "decoder"⟩, "", "", State.READY, State.PAUSED, ""⟩
      rfl (by decide)).2 (Basic05.PlayerWindow.create ⟨1, "playbin"⟩ StateChangeReturn.ASYNC)
      ⟨true, 52 * SECOND⟩ ⟨true, 0⟩ ⟨[], [], []⟩⟩

/-- C2: the bus handlers of basic-tutorial-3, -4 and -5 (and of dynamic_src)
answer "stop" (`false`) exactly on an EndOfStream or Error message, and
"continue" (`true`) on every other message, whatever its source and whatever
the playbin answers to the calls the handler makes. -/
theorem C2_stop_iff_eos_or_error (playbin : GstObject) (message : Message) :
    (∀ (s : Basic03.Ctl),
      ((Basic03.on_bus_message s message).1 = false ↔
        (message.message_type = MessageType.EOS ∨ message.message_type = MessageType.ERROR)) ∧
      ((Basic03.on_bus_message s message).1 = true ↔
        ¬ (message.message_type = MessageType.EOS ∨
            message.message_type = MessageType.ERROR))) ∧
    (∀ (s : Basic04.Ctl) (seeking : SeekingReply),
      ((Basic04.on_bus_message playbin s message seeking).1 = false ↔
        (message.message_type = MessageType.EOS ∨ message.message_type = MessageType.ERROR)) ∧
      ((Basic04.on_bus_message playbin s message seeking).1 = true ↔
        ¬ (message.message_type = MessageType.EOS ∨
            message.message_type = MessageType.ERROR))) ∧
    (∀ (w : Basic05.PlayerWindow) (dur pos : QueryReply) (tags : Basic05.StreamTags),
      ((Basic05.on_bus_message playbin w message dur pos tags).1 = false ↔
        (message.message_type = MessageType.EOS ∨ message.message_type = MessageType.ERROR)) ∧
      ((Basic05.on_bus_message playbin w message dur pos tags).1 = true ↔
        ¬ (message.message_type = MessageType.EOS ∨
            message.message_type = MessageType.ERROR))) ∧
    (∀ (s : DynamicSrc.Ctl),
      ((DynamicSrc.on_bus_message s message).1 = false ↔
        (message.message_type = MessageType.EOS ∨ message.message_type = MessageType.ERROR)) ∧
      ((DynamicSrc.on_bus_message s message).1 = true ↔
        ¬ (message.message_type = MessageType.EOS ∨
            message.message_type = MessageType.ERROR))) := by
  refine ⟨?_, ?_, ?_, ?_⟩
  · intro s
    unfold Basic03.on_bus_message
    cases hk : message.message_type <;> simp
    split_ifs <;> simp
  · intro s seeking
    unfold Basic04.on_bus_message
    cases hk : message.message_type <;> simp
    split_ifs <;> simp
  · intro w dur pos tags
    unfold Basic05.on_bus_message
    cases hk : message.message_type <;> simp
    all_goals split_ifs <;> simp
  · intro s
    unfold DynamicSrc.on_bus_message
    cases hk : message.message_type <;> simp
    split_ifs <;> simp

/-- The command-line handling makes no seeking query. -/
theorem seeking_queries_choose_uri (argv : List String) (uri_is_valid : String → Bool) :
    seeking_queries (choose_uri argv uri_is_valid).2 = 0 := by
  unfold choose_uri seeking_queries
  split_ifs <;> simp [Act.is_query_seeking]

/-- C3: basic-tutorial-4, from the initial values of the tracked variables:
once `main` has created the playbin and the request for PLAYING has answered
ASYNC, the tracked variables still have their initial values and no seeking
query has been made; after one StateChanged message of the playbin from
PAUSED to PLAYING has been dispatched, `playing` is true and exactly one
seeking query has been made, whatever the playbin answers to it. -/
theorem C3_first_playing_scenario (env : Basic04.Startup) (playbin : GstObject)
    (message : Message) (seeking : SeekingReply)
    (hpb : env.playbin = some playbin)
    (hret : env.play_ret = StateChangeReturn.ASYNC)
    (hkind : message.message_type = MessageType.STATE_CHANGED)
    (hsrc : message.source.id = playbin.id)
    (_hold : message.old_state = State.PAUSED)
    (hnew : message.new_state = State.PLAYING) :
    ((Basic04.main env []).2.playing = false ∧
      (Basic04.main env []).2.seekable = false ∧
      (Basic04.main env []).2.seek_done = false ∧
      (Basic04.main env []).2.duration = CLOCK_TIME_NONE ∧
      seeking_queries (Basic04.main env []).2.log = 0) ∧
    (Basic04.main env [Basic04.Ev.bus message seeking]).2.playing = true ∧
    seeking_queries (Basic04.main env [Basic04.Ev.bus message seeking]).2.log = 1 := by
  have hu := seeking_queries_choose_uri env.argv env.uri_is_valid
  unfold seeking_queries at hu ⊢
  refine ⟨?_, ?_, ?_⟩
  · simp [Basic04.main, Basic04.mainloop_run, hpb, hret, Basic04.Ctl.emit, Basic04.Ctl.init,
      List.countP_append, hu, Act.is_query_seeking]
  · simp only [Basic04.main, Basic04.mainloop_run, Basic04.on_bus_message, hpb, hret, hkind,
      hsrc, hnew]
    cases seeking.ok <;> cases seeking.seekable <;>
      simp [Basic04.Ctl.emit, Basic04.Ctl.init]
  · simp only [Basic04.main, Basic04.mainloop_run, Basic04.on_bus_message, hpb, hret, hkind,
      hsrc, hnew]
    cases seeking.ok <;> cases seeking.seekable <;>
      simp [Basic04.Ctl.emit, Basic04.Ctl.init, List.countP_append, hu, Act.is_query_seeking,
        state_changed_report]

/-- C3, with no command-line argument, a playbin that answers the seeking
query with "seekable from 0 to 52 s". -/
theorem C3_first_playing_scenario_witness :
    ((Basic04.main ⟨["basic-tutorial-4"], fun _ => true, some ⟨1, "playbin"⟩,
        StateChangeReturn.ASYNC⟩ []).2.playing = false ∧
      (Basic04.main ⟨["basic-tutorial-4"], fun _ => true, some ⟨1, "playbin"⟩,
        StateChangeReturn.ASYNC⟩ []).2.seekable = false ∧
      (Basic04.main ⟨["basic-tutorial-4"], fun _ => true, some ⟨1, "playbin"⟩,
        StateChangeReturn.ASYNC⟩ []).2.seek_done = false ∧
      (Basic04.main ⟨["basic-tutorial-4"], fun _ => true, some ⟨1, "playbin"⟩,
        StateChangeReturn.ASYNC⟩ []).2.duration = CLOCK_TIME_NONE ∧
      seeking_queries (Basic04.main ⟨["basic-tutorial-4"], fun _ => true, some ⟨1, "playbin"⟩,
        StateChangeReturn.ASYNC⟩ []).2.log = 0) ∧
    (Basic04.main ⟨["basic-tutorial-4"], fun _ => true, some ⟨1, "playbin"⟩,
        StateChangeReturn.ASYNC⟩
      [Basic04.Ev.bus
        ⟨MessageType.STATE_CHANGED, ⟨1, "playbin"⟩, "", "", State.PAUSED, State.PLAYING, ""⟩
        ⟨true, true, 0, 52 * SECOND⟩]).2.playing = true ∧
    seeking_queries (Basic04.main ⟨["basic-tutorial-4"], fun _ => true, some ⟨1, "playbin"⟩,
        StateChangeReturn.ASYNC⟩
      [Basic04.Ev.bus
        ⟨MessageType.STATE_CHANGED, ⟨1, "playbin"⟩, "", "", State.PAUSED, State.PLAYING, ""⟩
        ⟨true, true, 0, 52 * SECOND⟩]).2.log = 1 :=
  C3_first_playing_scenario
    ⟨["basic-tutorial-4"], fun _ => true, some ⟨1, "playbin"⟩, StateChangeReturn.ASYNC⟩
    ⟨1, "playbin"⟩
    ⟨MessageType.STATE_CHANGED, ⟨1, "playbin"⟩, "", "", State.PAUSED, State.PLAYING, ""⟩
    ⟨true, true, 0, 52 * SECOND⟩ rfl rfl rfl rfl rfl rfl

/-- One event adds a seeking query exactly when it is a StateChanged message
of the playbin to PLAYING. -/
theorem Basic04.seeking_queries_dispatch (playbin : GstObject) (s : Basic04.Ctl)
    (e : Basic04.Ev) :
    seeking_queries (Basic04.dispatch playbin s e).log =
      seeking_queries s.log + (if Basic04.is_playing_report playbin e then 1 else 0) := by
  cases e with
  | bus message seeking =>
    obtain ⟨kind, source, what, debug, old, new, name⟩ := message
    simp only [Basic04.dispatch, Basic04.on_bus_message, Basic04.is_playing_report,
      seeking_queries]
    cases kind <;> simp only [] <;> (try split_ifs) <;>
      simp_all [Basic04.Ctl.emit, List.countP_append, Act.is_query_seeking, error_report,
        state_changed_report]
  | tick pos dur =>
    simp only [Basic04.is_playing_report, Bool.false_eq_true, if_false, Nat.add_zero,
      Basic04.dispatch, Basic04.on_timeout, seeking_queries]
    split_ifs <;>
      simp [Basic04.Ctl.emit, List.countP_append, Act.is_query_seeking]

/-- C4 as stated fails: after the playbin has reported PLAYING once (one
seeking query, answer "seekable"), a later StateChanged message of the playbin
to PLAYING makes the handler issue a second seeking query, and the answer
"not seekable" changes the stored flag. -/
theorem C4_seeking_query_repeated :
    seeking_queries (Basic04.dispatch_all the_playbin Basic04.Ctl.init
      [Basic04.Ev.bus playbin_to_playing ⟨true, true, 0, 52 * SECOND⟩]).log = 1 ∧
    (Basic04.dispatch_all the_playbin Basic04.Ctl.init
      [Basic04.Ev.bus playbin_to_playing ⟨true, true, 0, 52 * SECOND⟩]).seekable = true ∧
    seeking_queries (Basic04.dispatch_all the_playbin Basic04.Ctl.init
      [Basic04.Ev.bus playbin_to_playing ⟨true, true, 0, 52 * SECOND⟩,
       Basic04.Ev.bus playbin_to_paused ⟨true, true, 0, 52 * SECOND⟩,
       Basic04.Ev.bus playbin_to_playing ⟨true, false, 0, 0⟩]).log = 2 ∧
    (Basic04.dispatch_all the_playbin Basic04.Ctl.init
      [Basic04.Ev.bus playbin_to_playing ⟨true, true, 0, 52 * SECOND⟩,
       Basic04.Ev.bus playbin_to_paused ⟨true, true, 0, 52 * SECOND⟩,
       Basic04.Ev.bus playbin_to_playing ⟨true, false, 0, 0⟩]).seekable = false := by
  refine ⟨?_, ?_, ?_, ?_⟩ <;> decide

/-- C4, amended: in basic-tutorial-4 a seeking query is issued at every
StateChanged message of the playbin whose new state is PLAYING and by no other
message or tick, so after any sequence of events the number of seeking queries
made is the number of such messages in the sequence; and `seekable` changes
only at such a message whose query succeeds, where it takes the value the
playbin reports. -/
theorem C4_seeking_query_at_each_playing_report (playbin : GstObject) (s : Basic04.Ctl)
    (evs : List Basic04.Ev) :
    seeking_queries (Basic04.dispatch_all playbin s evs).log =
      seeking_queries s.log + evs.countP (Basic04.is_playing_report playbin) ∧
    ∀ e : Basic04.Ev,
      (Basic04.dispatch playbin s e).seekable = Basic04.seekable_after playbin s e := by
  constructor
  · induction evs generalizing s with
    | nil => simp [Basic04.dispatch_all]
    | cons e evs ih =>
      have h := ih (Basic04.dispatch playbin s e)
      simp only [Basic04.dispatch_all, List.foldl_cons] at h ⊢
      rw [h, Basic04.seeking_queries_dispatch, List.countP_cons]
      omega
  · intro e
    cases e with
    | bus message seeking =>
      obtain ⟨kind, source, what, debug, old, new, name⟩ := message
      simp only [Basic04.dispatch, Basic04.on_bus_message, Basic04.seekable_after,
        Basic04.is_playing_report]
      cases kind <;> simp [Basic04.Ctl.emit]
      split_ifs <;> simp_all [Basic04.Ctl.emit]
    | tick pos dur =>
      simp only [Basic04.dispatch, Basic04.on_timeout, Basic04.seekable_after]
      split_ifs <;> simp [Basic04.Ctl.emit]

/-- A bus message sets `duration` to "unknown" when it is a DurationChanged
message and leaves it alone otherwise. -/
theorem Basic04.duration_on_bus_message (playbin : GstObject) (s : Basic04.Ctl)
    (message : Message) (seeking : SeekingReply) :
    (Basic04.on_bus_message playbin s message seeking).2.duration =
      if message.message_type = MessageType.DURATION_CHANGED then CLOCK_TIME_NONE
      else s.duration := by
  obtain ⟨kind, source, what, debug, old, new, name⟩ := message
  simp only [Basic04.on_bus_message]
  cases kind <;> simp only [] <;> (try split_ifs) <;> simp_all [Basic04.Ctl.emit]

/-- A bus message makes no duration query. -/
theorem Basic04.duration_queries_on_bus_message (playbin : GstObject) (s : Basic04.Ctl)
    (message : Message) (seeking : SeekingReply) :
    duration_queries (Basic04.on_bus_message playbin s message seeking).2.log =
      duration_queries s.log := by
  obtain ⟨kind, source, what, debug, old, new, name⟩ := message
  simp only [Basic04.on_bus_message, duration_queries]
  cases kind <;> simp only [] <;> (try split_ifs) <;>
    simp_all [Basic04.Ctl.emit, List.countP_append, Act.is_query_duration, error_report,
      state_changed_report]

/-- A tick replaces `duration` by what the duration query leaves in it when
the tick is taken while playing with the duration unknown, and leaves it
alone otherwise. -/
theorem Basic04.duration_on_timeout (playbin : GstObject) (s : Basic04.Ctl)
    (pos dur : QueryReply) :
    (Basic04.on_timeout playbin s pos dur).2.duration =
      if s.playing = true ∧ s.duration = CLOCK_TIME_NONE then dur.value else s.duration := by
  simp only [Basic04.on_timeout]
  split_ifs <;> simp_all [Basic04.Ctl.emit]

/-- A tick makes one duration query when it is taken while playing with the
duration unknown, and none otherwise. -/
theorem Basic04.duration_queries_on_timeout (playbin : GstObject) (s : Basic04.Ctl)
    (pos dur : QueryReply) :
    duration_queries (Basic04.on_timeout playbin s pos dur).2.log =
      duration_queries s.log +
        (if s.playing = true ∧ s.duration = CLOCK_TIME_NONE then 1 else 0) := by
  simp only [Basic04.on_timeout, duration_queries]
  split_ifs <;> simp_all [Basic04.Ctl.emit, List.countP_append, Act.is_query_duration]

/-- While `duration` is unknown, only a tick taken while playing can make it
known: events without such a tick keep it unknown. -/
theorem Basic04.duration_unknown_kept (playbin : GstObject) (s : Basic04.Ctl)
    (evs : List Basic04.Ev) (hs : s.duration = CLOCK_TIME_NONE)
    (hticks : Basic04.playing_ticks playbin s evs = 0) :
    (Basic04.dispatch_all playbin s evs).duration = CLOCK_TIME_NONE := by
  induction evs generalizing s with
  | nil => simpa [Basic04.dispatch_all] using hs
  | cons e evs ih =>
    simp only [Basic04.dispatch_all, List.foldl_cons]
    cases e with
    | bus message seeking =>
      simp only [Basic04.playing_ticks] at hticks
      refine ih _ ?_ hticks
      simp only [Basic04.dispatch, Basic04.duration_on_bus_message]
      split_ifs <;> simp [hs]
    | tick pos dur =>
      simp only [Basic04.playing_ticks] at hticks
      have hplay : ¬ s.playing = true := by
        intro h
        simp [h] at hticks
      refine ih _ ?_ (by omega)
      simp only [Basic04.dispatch, Basic04.duration_on_timeout]
      simp [hplay, hs]

/-- While `duration` is known, events other than DurationChanged messages
leave it alone and make no duration query. -/
theorem Basic04.duration_known_kept (playbin : GstObject) (s : Basic04.Ctl)
    (evs : List Basic04.Ev) (hs : s.duration ≠ CLOCK_TIME_NONE)
    (hevs : evs.any Basic04.is_duration_changed = false) :
    (Basic04.dispatch_all playbin s evs).duration = s.duration ∧
    duration_queries (Basic04.dispatch_all playbin s evs).log = duration_queries s.log := by
  induction evs generalizing s with
  | nil => simp [Basic04.dispatch_all]
  | cons e evs ih =>
    simp only [List.any_cons, Bool.or_eq_false_iff] at hevs
    simp only [Basic04.dispatch_all, List.foldl_cons]
    have hstep : (Basic04.dispatch playbin s e).duration = s.duration ∧
        duration_queries (Basic04.dispatch playbin s e).log = duration_queries s.log := by
      cases e with
      | bus message seeking =>
        have hk : ¬ message.message_type = MessageType.DURATION_CHANGED := by
          simpa [Basic04.is_duration_changed] using hevs.1
        simp [Basic04.dispatch, Basic04.duration_on_bus_message,
          Basic04.duration_queries_on_bus_message, hk]
      | tick pos dur =>
        simp [Basic04.dispatch, Basic04.duration_on_timeout,
          Basic04.duration_queries_on_timeout, hs]
    have h := ih (Basic04.dispatch playbin s e) (by rw [hstep.1]; exact hs) hevs.2
    simp only [Basic04.dispatch_all] at h
    rw [h.1, h.2, hstep.1, hstep.2]
    exact ⟨rfl, rfl⟩

/-- C5: the duration cache of basic-tutorial-4, for every state, every
message, every tick and every answer of the playbin.
(1) A DurationChanged message sets the cached duration to "unknown" (and no
other message touches it). (2) A tick makes a duration query exactly when it
is taken while playing with the cached duration unknown. (3) A tick with a
known cached duration leaves the value alone. (4) After a DurationChanged
message and any further events among which no tick was taken while playing,
the next tick, taken while playing, queries the duration. (5) From a known
cached duration, any events without a DurationChanged message leave the value
unchanged and make no duration query. -/
theorem C5_duration_cache (playbin : GstObject) (s t : Basic04.Ctl) (message : Message)
    (seeking : SeekingReply) (pos dur : QueryReply) (mid evs : List Basic04.Ev)
    (hkind : message.message_type = MessageType.DURATION_CHANGED)
    (hmid : Basic04.playing_ticks playbin
      (Basic04.dispatch playbin s (Basic04.Ev.bus message seeking)) mid = 0)
    (hplay : (Basic04.dispatch_all playbin s (Basic04.Ev.bus message seeking :: mid)).playing
      = true)
    (hknown : t.duration ≠ CLOCK_TIME_NONE)
    (hevs : evs.any Basic04.is_duration_changed = false) :
    (Basic04.on_bus_message playbin s message seeking).2.duration = CLOCK_TIME_NONE ∧
    (∀ (u : Basic04.Ctl) (m : Message) (q : SeekingReply),
      (Basic04.on_bus_message playbin u m q).2.duration =
        if m.message_type = MessageType.DURATION_CHANGED then CLOCK_TIME_NONE
        else u.duration) ∧
    (∀ (u : Basic04.Ctl) (p d : QueryReply),
      duration_queries (Basic04.on_timeout playbin u p d).2.log =
        duration_queries u.log +
          (if u.playing = true ∧ u.duration = CLOCK_TIME_NONE then 1 else 0)) ∧
    (Basic04.on_timeout playbin t pos dur).2.duration = t.duration ∧
    duration_queries (Basic04.on_timeout playbin
        (Basic04.dispatch_all playbin s (Basic04.Ev.bus message seeking :: mid)) pos dur).2.log =
      duration_queries
        (Basic04.dispatch_all playbin s (Basic04.Ev.bus message seeking :: mid)).log + 1 ∧
    (Basic04.dispatch_all playbin t evs).duration = t.duration ∧
    duration_queries (Basic04.dispatch_all playbin t evs).log = duration_queries t.log := by
  have hunknown : (Basic04.dispatch_all playbin s (Basic04.Ev.bus message seeking :: mid)).duration
      = CLOCK_TIME_NONE := by
    have h0 : (Basic04.dispatch playbin s (Basic04.Ev.bus message seeking)).duration
        = CLOCK_TIME_NONE := by
      simp [Basic04.dispatch, Basic04.duration_on_bus_message, hkind]
    simpa [Basic04.dispatch_all] using
      Basic04.duration_unknown_kept playbin _ mid h0 hmid
  refine ⟨?_, ?_, ?_, ?_, ?_, Basic04.duration_known_kept playbin t evs hknown hevs⟩
  · simp [Basic04.duration_on_bus_message, hkind]
  · intro u m q
    exact Basic04.duration_on_bus_message playbin u m q
  · intro u p d
    exact Basic04.duration_queries_on_timeout playbin u p d
  · simp [Basic04.duration_on_timeout, hknown]
  · rw [Basic04.duration_queries_on_timeout]
    simp [hplay, hunknown]

/-- C5, during playback with a cached duration of 52 s: a DurationChanged
message, then a message of a child; the next tick queries the duration. And
from the cached 52 s, a tick and a message of a child change nothing. -/
theorem C5_duration_cache_witness :
    (Basic04.on_bus_message the_playbin playing_52s duration_changed
      ⟨true, true, 0, 52 * SECOND⟩).2.duration = CLOCK_TIME_NONE ∧
    duration_queries (Basic04.on_timeout the_playbin
        (Basic04.dispatch_all the_playbin playing_52s
          (Basic04.Ev.bus duration_changed ⟨true, true, 0, 52 * SECOND⟩ ::
            [Basic04.Ev.bus child_to_playing ⟨true, true, 0, 52 * SECOND⟩]))
        ⟨true, 5 * SECOND⟩ ⟨true, 60 * SECOND⟩).2.log =
      duration_queries
        (Basic04.dispatch_all the_playbin playing_52s
          (Basic04.Ev.bus duration_changed ⟨true, true, 0, 52 * SECOND⟩ ::
            [Basic04.Ev.bus child_to_playing ⟨true, true, 0, 52 * SECOND⟩])).log + 1 ∧
    (Basic04.dispatch_all the_playbin playing_52s
      [Basic04.Ev.tick ⟨true, 5 * SECOND⟩ ⟨true, 60 * SECOND⟩,
       Basic04.Ev.bus child_to_playing ⟨true, true, 0, 52 * SECOND⟩]).duration =
      playing_52s.duration :=
  have h := C5_duration_cache the_playbin playing_52s playing_52s duration_changed
    ⟨true, true, 0, 52 * SECOND⟩ ⟨true, 5 * SECOND⟩ ⟨true, 60 * SECOND⟩
    [Basic04.Ev.bus child_to_playing ⟨true, true, 0, 52 * SECOND⟩]
    [Basic04.Ev.tick ⟨true, 5 * SECOND⟩ ⟨true, 60 * SECOND⟩,
     Basic04.Ev.bus child_to_playing ⟨true, true, 0, 52 * SECOND⟩]
    rfl (by decide) (by decide) (by decide) (by decide)
  ⟨h.1, h.2.2.2.2.1, h.2.2.2.2.2.1⟩

/-- C6 fails on the code of basic-tutorial-5: the handler has no case for
DurationChanged, so the message leaves the window as it is, cached
`stream_duration` of 52 s included, and the next `refresh_ui` makes no
duration query and keeps serving the 52 s although the playbin would now
answer 60 s. -/
theorem C6_duration_changed_keeps_stale_duration :
    Basic05.on_bus_message the_playbin window_52s duration_changed
      ⟨true, 60 * SECOND⟩ ⟨true, 5 * SECOND⟩ ⟨[], [], []⟩ = (true, window_52s) ∧
    duration_queries
      (Basic05.refresh_ui the_playbin window_52s
        ⟨true, 60 * SECOND⟩ ⟨true, 5 * SECOND⟩).2.log = 0 ∧
    (Basic05.refresh_ui the_playbin window_52s
      ⟨true, 60 * SECOND⟩ ⟨true, 5 * SECOND⟩).2.stream_duration = 52 * SECOND := by
  refine ⟨?_, ?_, ?_⟩ <;> decide

/-- A bus message makes no seek request and leaves `seek_done` alone. -/
theorem Basic04.seek_on_bus_message (playbin : GstObject) (s : Basic04.Ctl)
    (message : Message) (seeking : SeekingReply) :
    (Basic04.on_bus_message playbin s message seeking).2.log.filter Act.is_seek =
      s.log.filter Act.is_seek ∧
    (Basic04.on_bus_message playbin s message seeking).2.seek_done = s.seek_done := by
  obtain ⟨kind, source, what, debug, old, new, name⟩ := message
  simp only [Basic04.on_bus_message]
  cases kind <;> simp only [] <;> (try split_ifs) <;>
    simp_all [Basic04.Ctl.emit, List.filter_append, Act.is_seek, error_report,
      state_changed_report]

/-- A tick makes one seek request, to 30 s, when it is taken while playing
with `seekable` set, `seek_done` not set and a position beyond 10 s, and none
otherwise. -/
theorem Basic04.seek_on_timeout (playbin : GstObject) (s : Basic04.Ctl)
    (pos dur : QueryReply) :
    (Basic04.on_timeout playbin s pos dur).2.log.filter Act.is_seek =
      s.log.filter Act.is_seek ++
        (if s.playing = true ∧ s.seekable = true ∧ s.seek_done = false ∧
            10 * SECOND < pos.value
          then [Act.seek playbin.id (30 * SECOND)] else []) := by
  simp only [Basic04.on_timeout]
  split_ifs <;> simp_all [Basic04.Ctl.emit, List.filter_append, Act.is_seek]

/-- A tick sets `seek_done` when it makes the seek request and leaves it
alone otherwise. -/
theorem Basic04.seek_done_on_timeout (playbin : GstObject) (s : Basic04.Ctl)
    (pos dur : QueryReply) :
    (Basic04.on_timeout playbin s pos dur).2.seek_done =
      (s.seek_done ||
        decide (s.playing = true ∧ s.seekable = true ∧ 10 * SECOND < pos.value)) := by
  simp only [Basic04.on_timeout]
  cases hsd : s.seek_done <;> split_ifs <;> simp_all [Basic04.Ctl.emit]

/-- Every event preserves the invariant `seek_inv`. -/
theorem Basic04.seek_inv_dispatch (playbin : GstObject) (s : Basic04.Ctl) (e : Basic04.Ev)
    (h : Basic04.seek_inv s) : Basic04.seek_inv (Basic04.dispatch playbin s e) := by
  unfold Basic04.seek_inv seek_requests at h ⊢
  rw [List.countP_eq_length_filter] at h ⊢
  cases e with
  | bus message seeking =>
    obtain ⟨h1, h2⟩ := Basic04.seek_on_bus_message playbin s message seeking
    simp only [Basic04.dispatch]
    rw [h1, h2]
    exact h
  | tick pos dur =>
    simp only [Basic04.dispatch]
    rw [Basic04.seek_on_timeout, Basic04.seek_done_on_timeout]
    split_ifs with hc
    · have h0 := h.2 hc.2.2.1
      simp [h0, hc.1, hc.2.1, hc.2.2.2]
    · simp only [List.append_nil]
      refine ⟨h.1, fun hd => h.2 ?_⟩
      simp only [Bool.or_eq_false_iff] at hd
      exact hd.1

/-- Every sequence of events preserves the invariant `seek_inv`. -/
theorem Basic04.seek_inv_dispatch_all (playbin : GstObject) (evs : List Basic04.Ev)
    (s : Basic04.Ctl) (h : Basic04.seek_inv s) :
    Basic04.seek_inv (Basic04.dispatch_all playbin s evs) := by
  induction evs generalizing s with
  | nil => simpa [Basic04.dispatch_all] using h
  | cons e evs ih =>
    simp only [Basic04.dispatch_all, List.foldl_cons]
    exact ih _ (Basic04.seek_inv_dispatch playbin s e h)

/-- The dispatch loop preserves the invariant `seek_inv`. -/
theorem Basic04.seek_inv_mainloop_run (playbin : GstObject) (evs : List Basic04.Ev)
    (s : Basic04.Ctl) (watch timer : Bool) (h : Basic04.seek_inv s) :
    Basic04.seek_inv (Basic04.mainloop_run playbin s watch timer evs) := by
  induction evs generalizing s watch timer with
  | nil => simpa [Basic04.mainloop_run] using h
  | cons e evs ih =>
    cases e with
    | bus message seeking =>
      have hstep := Basic04.seek_inv_dispatch playbin s (Basic04.Ev.bus message seeking) h
      simp only [Basic04.dispatch] at hstep
      simp only [Basic04.mainloop_run]
      split_ifs
      · exact ih _ _ _ hstep
      · exact hstep
      · exact ih _ _ _ h
    | tick pos dur =>
      have hstep := Basic04.seek_inv_dispatch playbin s (Basic04.Ev.tick pos dur) h
      simp only [Basic04.dispatch] at hstep
      simp only [Basic04.mainloop_run]
      split_ifs
      · exact ih _ _ _ hstep
      · exact hstep
      · exact ih _ _ _ h

/-- The command-line handling makes no seek request. -/
theorem seek_requests_choose_uri (argv : List String) (uri_is_valid : String → Bool) :
    seek_requests (choose_uri argv uri_is_valid).2 = 0 := by
  unfold choose_uri seek_requests
  split_ifs <;> simp [Act.is_seek]

/-- C7: basic-tutorial-4 makes at most one seek request in a session, whatever
the messages, the ticks, their interleaving and the answers of the playbin:
(1) after any sequence of handler calls from the initial state, and (2) in any
run of `main`, the log holds at most one seek request. (3) `on_timeout` makes a
seek request, to 30 s, exactly when it runs while playing with `seekable` set,
`seek_done` not set and a position beyond 10 s; (4) it sets `seek_done` when it
does and otherwise leaves it alone; (5) `on_bus_message` makes no seek request
and leaves `seek_done` alone, so no handler resets `seek_done`. -/
theorem C7_at_most_one_seek (playbin : GstObject) (evs : List Basic04.Ev) :
    seek_requests (Basic04.dispatch_all playbin Basic04.Ctl.init evs).log ≤ 1 ∧
    (∀ env : Basic04.Startup, seek_requests (Basic04.main env evs).2.log ≤ 1) ∧
    (∀ (s : Basic04.Ctl) (pos dur : QueryReply),
      (Basic04.on_timeout playbin s pos dur).2.log.filter Act.is_seek =
        s.log.filter Act.is_seek ++
          (if s.playing = true ∧ s.seekable = true ∧ s.seek_done = false ∧
              10 * SECOND < pos.value
            then [Act.seek playbin.id (30 * SECOND)] else [])) ∧
    (∀ (s : Basic04.Ctl) (pos dur : QueryReply),
      (Basic04.on_timeout playbin s pos dur).2.seek_done =
        (s.seek_done ||
          decide (s.playing = true ∧ s.seekable = true ∧ 10 * SECOND < pos.value))) ∧
    (∀ (s : Basic04.Ctl) (message : Message) (seeking : SeekingReply),
      (Basic04.on_bus_message playbin s message seeking).2.log.filter Act.is_seek =
        s.log.filter Act.is_seek ∧
      (Basic04.on_bus_message playbin s message seeking).2.seek_done = s.seek_done) := by
  refine ⟨?_, ?_, Basic04.seek_on_timeout playbin, Basic04.seek_done_on_timeout playbin,
    Basic04.seek_on_bus_message playbin⟩
  · refine (Basic04.seek_inv_dispatch_all playbin evs Basic04.Ctl.init ?_).1
    simp [Basic04.seek_inv, Basic04.Ctl.init, seek_requests]
  · intro env
    have hu := seek_requests_choose_uri env.argv env.uri_is_valid
    unfold seek_requests at hu
    simp only [Basic04.main]
    cases hpb : env.playbin with
    | none => simp [Basic04.Ctl.emit, Basic04.Ctl.init, seek_requests, hu, Act.is_seek]
    | some pb =>
      simp only []
      split_ifs
      · simp [Basic04.Ctl.emit, Basic04.Ctl.init, seek_requests, hu, Act.is_seek]
      · have hinv : Basic04.seek_inv (Basic04.mainloop_run pb
            (((Basic04.Ctl.init.emit (choose_uri env.argv env.uri_is_valid).2).emit
              [Act.set_property pb.id "uri" (choose_uri env.argv env.uri_is_valid).1,
               Act.set_state pb.id State.PLAYING]).emit [Act.cout "Running.\n"])
            true true evs) := by
          apply Basic04.seek_inv_mainloop_run
          simp [Basic04.seek_inv, Basic04.Ctl.emit, Basic04.Ctl.init, seek_requests, hu,
            Act.is_seek]
        exact hinv.1
      · have hinv : Basic04.seek_inv (Basic04.mainloop_run pb
            (((Basic04.Ctl.init.emit (choose_uri env.argv env.uri_is_valid).2).emit
              [Act.set_property pb.id "uri" (choose_uri env.argv env.uri_is_valid).1,
               Act.set_state pb.id State.PLAYING]).emit [Act.cout "Running.\n"])
            true true evs) := by
          apply Basic04.seek_inv_mainloop_run
          simp [Basic04.seek_inv, Basic04.Ctl.emit, Basic04.Ctl.init, seek_requests, hu,
            Act.is_seek]
        have h1 := hinv.1
        unfold seek_requests at h1
        simpa [Basic04.Ctl.emit, seek_requests, Act.is_seek] using h1

/-- C8 as stated fails: two slider changes in a row, with nothing dispatched
in between, forward two seek requests to the playbin. -/
theorem C8_two_slider_changes_two_seeks :
    (Basic05.dispatch_all the_playbin window_52s
      [Basic05.Ev.slider 10, Basic05.Ev.slider 20]).log =
      [Act.seek 1 (10 * SECOND), Act.seek 1 (20 * SECOND)] ∧
    seek_requests (Basic05.dispatch_all the_playbin window_52s
      [Basic05.Ev.slider 10, Basic05.Ev.slider 20]).log = 2 := by
  constructor <;> decide

/-- C8, amended: in basic-tutorial-5 every call of `on_slider_value_changed`
forwards one seek request to the playbin, whether or not an earlier seek has
completed: a sequence of slider changes appends one seek per change to the
log, in order, each to the slider value times one second, so the number of
seek requests grows by the number of changes; the tracked members are left
alone. -/
theorem C8_every_slider_change_seeks (playbin : GstObject) (w : Basic05.PlayerWindow)
    (values : List Int) :
    (Basic05.dispatch_all playbin w (values.map Basic05.Ev.slider)).log =
      w.log ++ values.map (fun v => Act.seek playbin.id (Basic05.seek_target v)) ∧
    seek_requests (Basic05.dispatch_all playbin w (values.map Basic05.Ev.slider)).log =
      seek_requests w.log + values.length ∧
    (Basic05.dispatch_all playbin w (values.map Basic05.Ev.slider)).stream_state =
      w.stream_state ∧
    (Basic05.dispatch_all playbin w (values.map Basic05.Ev.slider)).stream_duration =
      w.stream_duration := by
  induction values generalizing w with
  | nil => simp [Basic05.dispatch_all]
  | cons v values ih =>
    have h := ih (Basic05.dispatch playbin w (Basic05.Ev.slider v))
    simp only [Basic05.dispatch_all, List.map_cons, List.foldl_cons] at h ⊢
    obtain ⟨h1, h2, h3, h4⟩ := h
    refine ⟨?_, ?_, ?_, ?_⟩
    · rw [h1]
      simp [Basic05.dispatch, Basic05.on_slider_value_changed, Basic05.PlayerWindow.emit]
    · rw [h2]
      simp [Basic05.dispatch, Basic05.on_slider_value_changed, Basic05.PlayerWindow.emit,
        seek_requests, List.countP_append, Act.is_seek]
      omega
    · rw [h3]
      simp [Basic05.dispatch, Basic05.on_slider_value_changed, Basic05.PlayerWindow.emit]
    · rw [h4]
      simp [Basic05.dispatch, Basic05.on_slider_value_changed, Basic05.PlayerWindow.emit]

/-- C9: the `pad-added` lambda of basic-tutorial-3, for every new pad, every
state and every answer of the link call.
(1) A link of the new pad to the sink pad of `convert` is attempted exactly
when the sink pad is not linked and the media type of the new pad begins with
"audio/x-raw". (2) When the sink pad is already linked, the lambda returns
after fetching the sink pad and printing the notice: it does not look at the
caps of the new pad (so it does not matter whether the pad has caps), and the
link is as before. (3) When the sink pad is not linked and the media type does
not begin with "audio/x-raw", the lambda only reads the caps and prints two
lines: the sink pad stays unlinked, no link is attempted, nothing goes to
`cerr` and nothing is posted. -/
theorem C9_pad_added_links_raw_audio_only (convert : GstObject) (sink_pad : Nat)
    (s s_linked s_free : Basic03.Ctl) (new_pad other_pad : Basic03.Pad)
    (ret : PadLinkReturn) (media_type : String)
    (hlinked : s_linked.sink_peer.isSome = true)
    (hfree : s_free.sink_peer = none)
    (hcaps : other_pad.current_caps = some media_type)
    (hother : str_has_prefix media_type "audio/x-raw" = false) :
    ((∃ s1, Basic03.on_pad_added convert sink_pad s new_pad ret = some s1 ∧
        s1.log.filter Act.is_pad_link =
          s.log.filter Act.is_pad_link ++ [Act.pad_link new_pad.id sink_pad]) ↔
      (s.sink_peer = none ∧
        ∃ t, new_pad.current_caps = some t ∧ str_has_prefix t "audio/x-raw" = true)) ∧
    Basic03.on_pad_added convert sink_pad s_linked new_pad ret =
      some (s_linked.emit [Act.get_static_pad convert.id "sink",
        Act.cout "sink pad of convert is already linked. Ignoring.\n"]) ∧
    Basic03.on_pad_added convert sink_pad s_free other_pad ret =
      some (s_free.emit [Act.get_static_pad convert.id "sink",
        Act.get_current_caps other_pad.id,
        Act.cout ("Received new pad " ++ other_pad.name ++ ", media type: "
          ++ media_type ++ "\n"),
        Act.cout "Media type is not raw audio. Ignoring.\n"]) ∧
    (s_free.emit [Act.get_static_pad convert.id "sink",
        Act.get_current_caps other_pad.id,
        Act.cout ("Received new pad " ++ other_pad.name ++ ", media type: "
          ++ media_type ++ "\n"),
        Act.cout "Media type is not raw audio. Ignoring.\n"]).sink_peer = none := by
  refine ⟨?_, ?_, ?_, ?_⟩
  · cases hp : s.sink_peer with
    | some peer =>
      simp [Basic03.on_pad_added, Basic03.Ctl.emit, hp, List.filter_append, Act.is_pad_link]
    | none =>
      cases hc : new_pad.current_caps with
      | none => simp [Basic03.on_pad_added, Basic03.Ctl.emit, hp, hc]
      | some t =>
        cases hpre : str_has_prefix t "audio/x-raw"
        · simp [Basic03.on_pad_added, Basic03.Ctl.emit, hp, hc, hpre, List.filter_append,
            Act.is_pad_link]
        · simp only [Basic03.on_pad_added, Basic03.Ctl.emit, hp, hc, hpre]
          split_ifs <;> simp_all [List.filter_append, Act.is_pad_link]
  · simp [Basic03.on_pad_added, Basic03.Ctl.emit, hlinked]
  · simp [Basic03.on_pad_added, Basic03.Ctl.emit, hfree, hcaps, hother]
  · simp [Basic03.Ctl.emit, hfree]

/-- C9, at a subtitle pad ("text/x-subtitle") arriving while the sink pad of
`convert` is not linked, and at an audio pad arriving while it is linked to
pad 7. -/
theorem C9_pad_added_links_raw_audio_only_witness :
    Basic03.on_pad_added the_convert 5 linked_to_7 audio_pad PadLinkReturn.OK =
      some (linked_to_7.emit [Act.get_static_pad the_convert.id "sink",
        Act.cout "sink pad of convert is already linked. Ignoring.\n"]) ∧
    Basic03.on_pad_added the_convert 5 unlinked subtitle_pad PadLinkReturn.OK =
      some (unlinked.emit [Act.get_static_pad the_convert.id "sink",
        Act.get_current_caps subtitle_pad.id,
        Act.cout ("Received new pad " ++ subtitle_pad.name ++ ", media type: "
          ++ "text/x-subtitle" ++ "\n"),
        Act.cout "Media type is not raw audio. Ignoring.\n"]) ∧
    (unlinked.emit [Act.get_static_pad the_convert.id "sink",
        Act.get_current_caps subtitle_pad.id,
        Act.cout ("Received new pad " ++ subtitle_pad.name ++ ", media type: "
          ++ "text/x-subtitle" ++ "\n"),
        Act.cout "Media type is not raw audio. Ignoring.\n"]).sink_peer = none :=
  (C9_pad_added_links_raw_audio_only the_convert 5 unlinked linked_to_7 unlinked audio_pad
    subtitle_pad PadLinkReturn.OK "text/x-subtitle" rfl rfl rfl (by decide)).2

/-- The timer callback of basic-tutorial-4 always answers "continue". -/
theorem Basic04.on_timeout_continue (playbin : GstObject) (s : Basic04.Ctl)
    (pos dur : QueryReply) : (Basic04.on_timeout playbin s pos dur).1 = true := by
  simp only [Basic04.on_timeout]
  split_ifs <;> rfl

/-- A bus handler of basic-tutorial-4 that leaves the loop running has
answered "continue". -/
theorem Basic04.on_bus_message_continue_04 (playbin : GstObject) (s : Basic04.Ctl)
    (message : Message) (seeking : SeekingReply)
    (h : (Basic04.on_bus_message playbin s message seeking).2.mainloop_running = true) :
    (Basic04.on_bus_message playbin s message seeking).1 = true := by
  obtain ⟨kind, source, what, debug, old, new, name⟩ := message
  simp only [Basic04.on_bus_message] at h ⊢
  cases kind <;> simp only [] at h ⊢ <;> (try split_ifs) <;> simp_all

/-- The dispatch loop of basic-tutorial-4 over `pre ++ rest`, when it is still
running after `pre`, goes on with `rest` from the state reached. -/
theorem Basic04.mainloop_run_append_04 (playbin : GstObject) (pre rest : List Basic04.Ev)
    (s : Basic04.Ctl)
    (h : (Basic04.mainloop_run playbin s true true pre).mainloop_running = true) :
    Basic04.mainloop_run playbin s true true (pre ++ rest) =
      Basic04.mainloop_run playbin (Basic04.mainloop_run playbin s true true pre)
        true true rest := by
  induction pre generalizing s with
  | nil => simp [Basic04.mainloop_run]
  | cons e pre ih =>
    cases e with
    | bus message seeking =>
      simp only [Basic04.mainloop_run, List.cons_append, if_true] at h ⊢
      by_cases hr : (Basic04.on_bus_message playbin s message seeking).2.mainloop_running = true
      · have hw := Basic04.on_bus_message_continue_04 playbin s message seeking hr
        simp only [hr, hw, if_true] at h ⊢
        exact ih _ h
      · simp only [hr] at h
        exact absurd h hr
    | tick pos dur =>
      simp only [Basic04.mainloop_run, List.cons_append, if_true] at h ⊢
      by_cases hr : (Basic04.on_timeout playbin s pos dur).2.mainloop_running = true
      · have hw := Basic04.on_timeout_continue playbin s pos dur
        simp only [hr, hw, if_true] at h ⊢
        exact ih _ h
      · simp only [hr] at h
        exact absurd h hr

/-- A bus handler of basic-tutorial-3 that leaves the loop running has
answered "continue". -/
theorem Basic03.on_bus_message_continue_03 (s : Basic03.Ctl) (message : Message)
    (h : (Basic03.on_bus_message s message).2.mainloop_running = true) :
    (Basic03.on_bus_message s message).1 = true := by
  obtain ⟨kind, source, what, debug, old, new, name⟩ := message
  simp only [Basic03.on_bus_message] at h ⊢
  cases kind <;> simp only [] at h ⊢ <;> (try split_ifs) <;> simp_all

/-- The dispatch loop of basic-tutorial-3 over `pre ++ rest`, when it is still
running after `pre`, goes on with `rest` from the state reached. -/
theorem Basic03.mainloop_run_append_03 (convert : GstObject) (sink_pad : Nat)
    (pre rest : List Basic03.Ev) (s s1 : Basic03.Ctl)
    (h : Basic03.mainloop_run convert sink_pad s true pre = some s1)
    (hrun : s1.mainloop_running = true) :
    Basic03.mainloop_run convert sink_pad s true (pre ++ rest) =
      Basic03.mainloop_run convert sink_pad s1 true rest := by
  induction pre generalizing s with
  | nil =>
    simp only [Basic03.mainloop_run, Option.some.injEq] at h
    simp [h]
  | cons e pre ih =>
    cases e with
    | bus message =>
      simp only [Basic03.mainloop_run, List.cons_append, if_true] at h ⊢
      by_cases hr : (Basic03.on_bus_message s message).2.mainloop_running = true
      · have hw := Basic03.on_bus_message_continue_03 s message hr
        simp only [hr, hw, if_true] at h ⊢
        exact ih _ h
      · simp only [hr, Bool.false_eq_true, if_false, Option.some.injEq] at h
        rw [← h] at hrun
        exact absurd hrun hr
    | pad_added new_pad ret =>
      simp only [Basic03.mainloop_run, List.cons_append] at h ⊢
      cases hp : Basic03.on_pad_added convert sink_pad s new_pad ret with
      | none => simp [hp] at h
      | some s2 =>
        simp only [hp] at h ⊢
        exact ih _ h

/-- C10 as stated fails for basic-tutorial-5: on an Error message the handler
prints the error, calls `on_button_stop`, which requests READY, and answers
"stop"; it neither requests NULL nor quits the dispatch loop. -/
theorem C10_error_in_basic05_requests_ready :
    Basic05.on_bus_message the_playbin window_52s stream_error
        ⟨true, 52 * SECOND⟩ ⟨true, 5 * SECOND⟩ ⟨[], [], []⟩ =
      (false, { stream_state := State.PLAYING, stream_duration := 52 * SECOND,
                streams_list := "",
                log := [Act.cerr "Error received from element decoder: no decoder available\n",
                        Act.set_state 1 State.READY] }) ∧
    Act.set_state 1 State.NULL ∉
      (Basic05.on_bus_message the_playbin window_52s stream_error
        ⟨true, 52 * SECOND⟩ ⟨true, 5 * SECOND⟩ ⟨[], [], []⟩).2.log ∧
    Act.mainloop_quit ∉
      (Basic05.on_bus_message the_playbin window_52s stream_error
        ⟨true, 52 * SECOND⟩ ⟨true, 5 * SECOND⟩ ⟨[], [], []⟩).2.log := by
  refine ⟨?_, ?_, ?_⟩ <;> decide

/-- Run of `main` of basic-tutorial-4 whose loop is still running after `pre`:
an Error message next ends the run with status 0, after `mainloop->quit()`
and the request for NULL. -/
theorem Basic04.main_error_shutdown_04 (env : Basic04.Startup) (playbin : GstObject)
    (pre rest : List Basic04.Ev) (message : Message) (seeking : SeekingReply)
    (hpb : env.playbin = some playbin)
    (hkind : message.message_type = MessageType.ERROR)
    (hrun : (Basic04.main env pre).1 = Outcome.running) :
    Basic04.main env (pre ++ Basic04.Ev.bus message seeking :: rest) =
      (Outcome.exit EXIT_SUCCESS,
        { (Basic04.main env pre).2 with
          mainloop_running := false,
          log := (Basic04.main env pre).2.log ++ (error_report message ++
            [Act.mainloop_quit, Act.cout "Returned. Stopping pipeline.\n",
             Act.set_state playbin.id State.NULL]) }) := by
  simp only [Basic04.main, hpb] at hrun ⊢
  by_cases hf : env.play_ret = StateChangeReturn.FAILURE
  · simp [hf] at hrun
  · simp only [hf, if_false] at hrun ⊢
    split_ifs at hrun with hS
    rw [Basic04.mainloop_run_append_04 _ _ _ _ hS]
    simp only [Basic04.mainloop_run, Basic04.on_bus_message, hkind, hS, if_true,
      Bool.false_eq_true, if_false]
    simp [Basic04.Ctl.emit]

/-- Run of `main` of basic-tutorial-3 whose loop is still running after `pre`:
an Error message next ends the run with status 0, after `mainloop->quit()`
and the request for NULL. -/
theorem Basic03.main_error_shutdown_03 (env : Basic03.Startup)
    (pre rest : List Basic03.Ev) (message : Message)
    (hkind : message.message_type = MessageType.ERROR)
    (hrun : (Basic03.main env pre).1 = Outcome.running) :
    Basic03.main env (pre ++ Basic03.Ev.bus message :: rest) =
      (Outcome.exit EXIT_SUCCESS,
        { (Basic03.main env pre).2 with
          mainloop_running := false,
          log := (Basic03.main env pre).2.log ++ (error_report message ++
            [Act.mainloop_quit, Act.cout "Returned. Stopping pipeline.\n",
             Act.set_state env.pipeline_id State.NULL]) }) := by
  simp only [Basic03.main] at hrun ⊢
  cases h1 : env.source <;> cases h2 : env.convert <;> cases h3 : env.resample <;>
    cases h4 : env.sink <;> simp only [h1, h2, h3, h4] at hrun ⊢ <;>
    (try (exact absurd hrun (by simp)))
  cases h5 : env.add_throws with
  | some ex => simp [h5] at hrun
  | none =>
    simp only [h5] at hrun ⊢
    by_cases hf : env.play_ret = StateChangeReturn.FAILURE
    · simp [hf] at hrun
    · simp only [hf, if_false] at hrun ⊢
      split at hrun
      · simp at hrun
      · rename_i s6 hs6
        split_ifs at hrun with hS
        rw [Basic03.mainloop_run_append_03 _ _ _ _ _ _ hs6 hS]
        simp only [hs6, hS, Basic03.mainloop_run, Basic03.on_bus_message, hkind, if_true,
          Bool.false_eq_true, if_false]
        simp [Basic03.Ctl.emit]

/-- C10, amended: what an Error message from the bus triggers.
In basic-tutorial-3 and basic-tutorial-4 the handler prints the error, calls
`mainloop->quit()` and answers "stop" (1, 3); in a run of `main` whose loop
is still running when the message arrives, the loop ends there and `main`
requests NULL on the pipeline (the playbin) and returns 0 (2, 4). In
basic-tutorial-5 the handler prints the error, requests READY on the playbin
through `on_button_stop` and answers "stop" (5); it requests no NULL state
and does not quit the dispatch loop (6, 7). -/
theorem C10_error_shutdown (env3 : Basic03.Startup) (pre3 rest3 : List Basic03.Ev)
    (env4 : Basic04.Startup) (playbin4 : GstObject) (pre4 rest4 : List Basic04.Ev)
    (seeking : SeekingReply)
    (playbin5 : GstObject) (w : Basic05.PlayerWindow) (dur pos : QueryReply)
    (tags : Basic05.StreamTags) (s3 : Basic03.Ctl) (s4 : Basic04.Ctl) (message : Message)
    (hkind : message.message_type = MessageType.ERROR)
    (hrun3 : (Basic03.main env3 pre3).1 = Outcome.running)
    (hpb4 : env4.playbin = some playbin4)
    (hrun4 : (Basic04.main env4 pre4).1 = Outcome.running) :
    Basic03.on_bus_message s3 message =
      (false, { s3 with mainloop_running := false,
                        log := s3.log ++ (error_report message ++ [Act.mainloop_quit]) }) ∧
    Basic03.main env3 (pre3 ++ Basic03.Ev.bus message :: rest3) =
      (Outcome.exit EXIT_SUCCESS,
        { (Basic03.main env3 pre3).2 with
          mainloop_running := false,
          log := (Basic03.main env3 pre3).2.log ++ (error_report message ++
            [Act.mainloop_quit, Act.cout "Returned. Stopping pipeline.\n",
             Act.set_state env3.pipeline_id State.NULL]) }) ∧
    Basic04.on_bus_message playbin4 s4 message seeking =
      (false, { s4 with mainloop_running := false,
                        log := s4.log ++ (error_report message ++ [Act.mainloop_quit]) }) ∧
    Basic04.main env4 (pre4 ++ Basic04.Ev.bus message seeking :: rest4) =
      (Outcome.exit EXIT_SUCCESS,
        { (Basic04.main env4 pre4).2 with
          mainloop_running := false,
          log := (Basic04.main env4 pre4).2.log ++ (error_report message ++
            [Act.mainloop_quit, Act.cout "Returned. Stopping pipeline.\n",
             Act.set_state playbin4.id State.NULL]) }) ∧
    Basic05.on_bus_message playbin5 w message dur pos tags =
      (false, { w with log := w.log ++ (error_report message ++
        [Act.set_state playbin5.id State.READY]) }) ∧
    Act.set_state playbin5.id State.NULL ∉
      error_report message ++ [Act.set_state playbin5.id State.READY] ∧
    Act.mainloop_quit ∉
      error_report message ++ [Act.set_state playbin5.id State.READY] := by
  refine ⟨?_, Basic03.main_error_shutdown_03 env3 pre3 rest3 message hkind hrun3, ?_,
    Basic04.main_error_shutdown_04 env4 playbin4 pre4 rest4 message seeking hpb4 hkind hrun4,
    ?_, ?_, ?_⟩
  · simp [Basic03.on_bus_message, hkind, Basic03.Ctl.emit]
  · simp [Basic04.on_bus_message, hkind, Basic04.Ctl.emit]
  · simp [Basic05.on_bus_message, hkind, Basic05.on_button_stop, Basic05.PlayerWindow.emit]
  · unfold error_report
    split_ifs <;> simp
  · unfold error_report
    split_ifs <;> simp

/-- C10, at an Error message of a child element: in basic-tutorial-3 after a
raw-audio pad has been linked, in basic-tutorial-4 after the playbin has
reached PLAYING, in basic-tutorial-5 during playback. -/
theorem C10_error_shutdown_witness :
    Basic03.main startup_03
        ([Basic03.Ev.pad_added audio_pad PadLinkReturn.OK] ++
          Basic03.Ev.bus stream_error :: []) =
      (Outcome.exit EXIT_SUCCESS,
        { (Basic03.main startup_03 [Basic03.Ev.pad_added audio_pad PadLinkReturn.OK]).2 with
          mainloop_running := false,
          log := (Basic03.main startup_03
              [Basic03.Ev.pad_added audio_pad PadLinkReturn.OK]).2.log ++
            (error_report stream_error ++
              [Act.mainloop_quit, Act.cout "Returned. Stopping pipeline.\n",
               Act.set_state startup_03.pipeline_id State.NULL]) }) ∧
    Basic04.main startup_04
        ([Basic04.Ev.bus playbin_to_playing ⟨true, true, 0, 52 * SECOND⟩] ++
          Basic04.Ev.bus stream_error ⟨true, true, 0, 52 * SECOND⟩ :: []) =
      (Outcome.exit EXIT_SUCCESS,
        { (Basic04.main startup_04
            [Basic04.Ev.bus playbin_to_playing ⟨true, true, 0, 52 * SECOND⟩]).2 with
          mainloop_running := false,
          log := (Basic04.main startup_04
              [Basic04.Ev.bus playbin_to_playing ⟨true, true, 0, 52 * SECOND⟩]).2.log ++
            (error_report stream_error ++
              [Act.mainloop_quit, Act.cout "Returned. Stopping pipeline.\n",
               Act.set_state the_playbin.id State.NULL]) }) ∧
    Basic05.on_bus_message the_playbin window_52s stream_error
        ⟨true, 52 * SECOND⟩ ⟨true, 5 * SECOND⟩ ⟨[], [], []⟩ =
      (false, { window_52s with log := window_52s.log ++ (error_report stream_error ++
        [Act.set_state the_playbin.id State.READY]) }) :=
  have h := C10_error_shutdown startup_03 [Basic03.Ev.pad_added audio_pad PadLinkReturn.OK] []
    startup_04 the_playbin [Basic04.Ev.bus playbin_to_playing ⟨true, true, 0, 52 * SECOND⟩] []
    ⟨true, true, 0, 52 * SECOND⟩ the_playbin window_52s ⟨true, 52 * SECOND⟩
    ⟨true, 5 * SECOND⟩ ⟨[], [], []⟩ unlinked playing_52s stream_error
    rfl (by decide) rfl (by decide)
  ⟨h.2.1, h.2.2.2.1, h.2.2.2.2.1⟩


/-- A tick of basic-tutorial-4 answers "continue", leaves the loop running
state and `playing` alone, and logs no state request and no quit. -/
theorem Basic04.on_timeout_harmless (playbin : GstObject) (s : Basic04.Ctl)
    (pos dur : QueryReply) :
    (Basic04.on_timeout playbin s pos dur).1 = true ∧
    (Basic04.on_timeout playbin s pos dur).2.mainloop_running = s.mainloop_running ∧
    (Basic04.on_timeout playbin s pos dur).2.playing = s.playing ∧
    (Basic04.on_timeout playbin s pos dur).2.log.filter Act.is_set_state =
      s.log.filter Act.is_set_state ∧
    (Basic04.on_timeout playbin s pos dur).2.log.filter Act.is_mainloop_quit =
      s.log.filter Act.is_mainloop_quit := by
  simp only [Basic04.on_timeout]
  split_ifs <;>
    simp_all [Basic04.Ctl.emit, List.filter_append, Act.is_set_state, Act.is_mainloop_quit]

/-- A call of `refresh_ui` answers "continue", leaves `stream_state` alone,
and logs no state request, no quit and no seek. -/
theorem Basic05.refresh_ui_harmless (playbin : GstObject) (w : Basic05.PlayerWindow)
    (dur pos : QueryReply) :
    (Basic05.refresh_ui playbin w dur pos).1 = true ∧
    (Basic05.refresh_ui playbin w dur pos).2.stream_state = w.stream_state ∧
    (Basic05.refresh_ui playbin w dur pos).2.log.filter Act.is_set_state =
      w.log.filter Act.is_set_state ∧
    (Basic05.refresh_ui playbin w dur pos).2.log.filter Act.is_mainloop_quit =
      w.log.filter Act.is_mainloop_quit ∧
    (Basic05.refresh_ui playbin w dur pos).2.log.filter Act.is_seek =
      w.log.filter Act.is_seek := by
  simp only [Basic05.refresh_ui]
  split_ifs <;>
    simp_all [Basic05.PlayerWindow.emit, List.filter_append, Act.is_set_state,
      Act.is_mainloop_quit, Act.is_seek]

/-- A call of `refresh_ui` makes one duration query when `stream_state` is at
least PAUSED and the duration is unknown, and none otherwise. -/
theorem Basic05.duration_queries_refresh_ui (playbin : GstObject) (w : Basic05.PlayerWindow)
    (dur pos : QueryReply) :
    duration_queries (Basic05.refresh_ui playbin w dur pos).2.log =
      duration_queries w.log +
        (if State.PAUSED.toNat ≤ w.stream_state.toNat ∧ w.stream_duration = CLOCK_TIME_NONE
          then 1 else 0) := by
  simp only [Basic05.refresh_ui, duration_queries]
  split_ifs <;>
    simp_all [Basic05.PlayerWindow.emit, List.countP_append, Act.is_query_duration]
  all_goals omega

/-- A call of `refresh_ui` replaces `stream_duration` by what the duration
query leaves in it when `stream_state` is at least PAUSED and the duration is
unknown, and leaves it alone otherwise. -/
theorem Basic05.duration_refresh_ui (playbin : GstObject) (w : Basic05.PlayerWindow)
    (dur pos : QueryReply) :
    (Basic05.refresh_ui playbin w dur pos).2.stream_duration =
      if State.PAUSED.toNat ≤ w.stream_state.toNat ∧ w.stream_duration = CLOCK_TIME_NONE
        then dur.value else w.stream_duration := by
  simp only [Basic05.refresh_ui]
  split_ifs <;> simp_all [Basic05.PlayerWindow.emit]
  all_goals omega


/-- C11: a failed position or duration query is not fatal, in basic-tutorial-4
`on_timeout` and in basic-tutorial-5 `refresh_ui`.
For every state and every answer of the two queries (1, 7) the tick answers
"continue", (2, 8) makes no state request and (3, 9) does not quit the loop
(the running flag and `playing`, `stream_state` are as before).
For a failed duration query (`bad_dur`, which leaves in the out-parameter
what it held or `CLOCK_TIME_NONE`): (4, 10) the cached duration is as before
the tick, so an unknown duration is still unknown, and (5, 11) the next tick
makes the duration query again whenever this tick made it.
(6) In basic-tutorial-4 a tick whose position query failed (`bad_pos`, which
leaves in the out-parameter the initial 0 or `CLOCK_TIME_NONE`) makes no seek
request; (12) `refresh_ui` never makes one. -/
theorem C11_query_failure_not_fatal (playbin : GstObject) (s : Basic04.Ctl)
    (w : Basic05.PlayerWindow) (pos dur bad_pos bad_dur next_pos next_dur : QueryReply)
    (hpos : bad_pos.ok = false) (hposc : failed_query_keeps 0 bad_pos = true)
    (hdur : bad_dur.ok = false) (hdurc : failed_query_keeps CLOCK_TIME_NONE bad_dur = true) :
    (Basic04.on_timeout playbin s pos dur).1 = true ∧
    (Basic04.on_timeout playbin s pos dur).2.log.filter Act.is_set_state =
      s.log.filter Act.is_set_state ∧
    ((Basic04.on_timeout playbin s pos dur).2.log.filter Act.is_mainloop_quit =
        s.log.filter Act.is_mainloop_quit ∧
      (Basic04.on_timeout playbin s pos dur).2.mainloop_running = s.mainloop_running ∧
      (Basic04.on_timeout playbin s pos dur).2.playing = s.playing) ∧
    (Basic04.on_timeout playbin s pos bad_dur).2.duration = s.duration ∧
    duration_queries (Basic04.on_timeout playbin
        (Basic04.on_timeout playbin s pos bad_dur).2 next_pos next_dur).2.log =
      duration_queries (Basic04.on_timeout playbin s pos bad_dur).2.log +
        (if s.playing = true ∧ s.duration = CLOCK_TIME_NONE then 1 else 0) ∧
    (Basic04.on_timeout playbin s bad_pos dur).2.log.filter Act.is_seek =
      s.log.filter Act.is_seek ∧
    (Basic05.refresh_ui playbin w dur pos).1 = true ∧
    (Basic05.refresh_ui playbin w dur pos).2.log.filter Act.is_set_state =
      w.log.filter Act.is_set_state ∧
    ((Basic05.refresh_ui playbin w dur pos).2.log.filter Act.is_mainloop_quit =
        w.log.filter Act.is_mainloop_quit ∧
      (Basic05.refresh_ui playbin w dur pos).2.stream_state = w.stream_state) ∧
    (Basic05.refresh_ui playbin w bad_dur pos).2.stream_duration = w.stream_duration ∧
    duration_queries (Basic05.refresh_ui playbin
        (Basic05.refresh_ui playbin w bad_dur pos).2 next_dur next_pos).2.log =
      duration_queries (Basic05.refresh_ui playbin w bad_dur pos).2.log +
        (if State.PAUSED.toNat ≤ w.stream_state.toNat ∧ w.stream_duration = CLOCK_TIME_NONE
          then 1 else 0) ∧
    (Basic05.refresh_ui playbin w dur pos).2.log.filter Act.is_seek =
      w.log.filter Act.is_seek := by
  have hbd : bad_dur.value = CLOCK_TIME_NONE := by
    simpa [failed_query_keeps, hdur] using hdurc
  have hbp : bad_pos.value ≤ 10 * SECOND := by
    have h : bad_pos.value = 0 ∨ bad_pos.value = CLOCK_TIME_NONE := by
      simpa [failed_query_keeps, hpos] using hposc
    rcases h with h | h <;> rw [h] <;> decide
  have h4 := Basic04.on_timeout_harmless playbin s pos dur
  have h4b := Basic04.on_timeout_harmless playbin s pos bad_dur
  have h5 := Basic05.refresh_ui_harmless playbin w dur pos
  have h5b := Basic05.refresh_ui_harmless playbin w bad_dur pos
  have d4 : (Basic04.on_timeout playbin s pos bad_dur).2.duration = s.duration := by
    rw [Basic04.duration_on_timeout]
    split_ifs with h
    · rw [hbd, h.2]
    · rfl
  have d5 : (Basic05.refresh_ui playbin w bad_dur pos).2.stream_duration =
      w.stream_duration := by
    rw [Basic05.duration_refresh_ui]
    split_ifs with h
    · rw [hbd, h.2]
    · rfl
  refine ⟨h4.1, h4.2.2.2.1, ⟨h4.2.2.2.2, h4.2.1, h4.2.2.1⟩, d4, ?_, ?_,
    h5.1, h5.2.2.1, ⟨h5.2.2.2.1, h5.2.1⟩, d5, ?_, h5.2.2.2.2⟩
  · rw [Basic04.duration_queries_on_timeout, d4, h4b.2.2.1]
  · rw [Basic04.seek_on_timeout]
    have : ¬ (s.playing = true ∧ s.seekable = true ∧ s.seek_done = false ∧
        10 * SECOND < bad_pos.value) := by
      intro h
      omega
    simp [this]
  · rw [Basic05.duration_queries_refresh_ui, d5, h5b.2.1]

/-- C11, at a tick of basic-tutorial-4 during playback with the duration
unknown, and at a `refresh_ui` of a window in PLAYING with the duration
unknown, both queries failing. -/
theorem C11_query_failure_not_fatal_witness :
    (Basic04.on_timeout the_playbin unknown_duration_04 failed_reply failed_reply).2.duration
      = CLOCK_TIME_NONE ∧
    duration_queries (Basic04.on_timeout the_playbin
        (Basic04.on_timeout the_playbin unknown_duration_04 failed_reply failed_reply).2
        failed_reply failed_reply).2.log =
      duration_queries
        (Basic04.on_timeout the_playbin unknown_duration_04 failed_reply failed_reply).2.log
        + 1 ∧
    (Basic04.on_timeout the_playbin unknown_duration_04 failed_reply failed_reply).2.log.filter
      Act.is_seek = [] ∧
    (Basic05.refresh_ui the_playbin unknown_duration_05 failed_reply failed_reply).2.stream_duration
      = CLOCK_TIME_NONE :=
  have h := C11_query_failure_not_fatal the_playbin unknown_duration_04 unknown_duration_05
    failed_reply failed_reply failed_reply failed_reply failed_reply failed_reply
    rfl (by decide) rfl (by decide)
  ⟨h.2.2.2.1, h.2.2.2.2.1, h.2.2.2.2.2.1, h.2.2.2.2.2.2.2.2.2.1⟩


/-- C12: the application event bridge of basic-tutorial-5.
(1) `on_tags_changed` does one thing: it posts an Application message whose
structure is named "tag-changed" on the bus of the playbin; `stream_state`,
`stream_duration` and the text of `streams_list` are as before and the log
gains nothing else (no slider call). (2) Of all events the window can get,
`analyze_streams` is entered exactly at a bus message of kind Application
whose structure is named "tag-changed", and once; (3) the text of
`streams_list` is rebuilt exactly there and is left alone by every other
event, `on_tags_changed` included. -/
theorem C12_tags_changed_bridge (playbin : GstObject) (w : Basic05.PlayerWindow) :
    Basic05.on_tags_changed playbin w =
      { w with log := w.log ++ [Act.post_application playbin.id "tag-changed"] } ∧
    (∀ e : Basic05.Ev,
      (Basic05.dispatch playbin w e).log.filter Act.is_enter_analyze_streams =
        w.log.filter Act.is_enter_analyze_streams ++
          (if Basic05.is_tag_changed e then [Act.enter_analyze_streams] else [])) ∧
    (∀ e : Basic05.Ev,
      (Basic05.dispatch playbin w e).streams_list = Basic05.streams_list_after w e) := by
  refine ⟨rfl, ?_, ?_⟩
  · intro e
    cases e with
    | bus message dur pos tags =>
      obtain ⟨kind, source, what, debug, old, new, name⟩ := message
      simp only [Basic05.dispatch, Basic05.on_bus_message, Basic05.is_tag_changed]
      cases kind <;> simp only [] <;> (try split_ifs) <;>
        simp_all [Basic05.PlayerWindow.emit, Basic05.on_button_stop, Basic05.analyze_streams,
          Basic05.refresh_ui, List.filter_append, Act.is_enter_analyze_streams, error_report,
          state_changed_report]
      all_goals (try split_ifs) <;>
        simp_all [Basic05.PlayerWindow.emit, List.filter_append,
          Act.is_enter_analyze_streams]
    | tick dur pos =>
      simp only [Basic05.dispatch, Basic05.refresh_ui, Basic05.is_tag_changed]
      split_ifs <;>
        simp_all [Basic05.PlayerWindow.emit, List.filter_append,
          Act.is_enter_analyze_streams]
    | slider value =>
      simp [Basic05.dispatch, Basic05.on_slider_value_changed, Basic05.is_tag_changed,
        Basic05.PlayerWindow.emit, List.filter_append, Act.is_enter_analyze_streams]
    | play =>
      simp [Basic05.dispatch, Basic05.on_button_play, Basic05.is_tag_changed,
        Basic05.PlayerWindow.emit, List.filter_append, Act.is_enter_analyze_streams]
    | pause =>
      simp [Basic05.dispatch, Basic05.on_button_pause, Basic05.is_tag_changed,
        Basic05.PlayerWindow.emit, List.filter_append, Act.is_enter_analyze_streams]
    | stop =>
      simp [Basic05.dispatch, Basic05.on_button_stop, Basic05.is_tag_changed,
        Basic05.PlayerWindow.emit, List.filter_append, Act.is_enter_analyze_streams]
    | tags_changed =>
      simp [Basic05.dispatch, Basic05.on_tags_changed, Basic05.is_tag_changed,
        Basic05.PlayerWindow.emit, List.filter_append, Act.is_enter_analyze_streams]
  · intro e
    cases e with
    | bus message dur pos tags =>
      obtain ⟨kind, source, what, debug, old, new, name⟩ := message
      simp only [Basic05.dispatch, Basic05.on_bus_message, Basic05.streams_list_after,
        Basic05.is_tag_changed]
      cases kind <;> simp only [] <;> (try split_ifs) <;>
        simp_all [Basic05.PlayerWindow.emit, Basic05.on_button_stop, Basic05.refresh_ui]
      all_goals (try split_ifs) <;> simp_all [Basic05.PlayerWindow.emit]
    | tick dur pos =>
      simp only [Basic05.dispatch, Basic05.refresh_ui, Basic05.streams_list_after]
      split_ifs <;> simp_all [Basic05.PlayerWindow.emit]
    | slider value =>
      simp [Basic05.dispatch, Basic05.on_slider_value_changed, Basic05.streams_list_after,
        Basic05.PlayerWindow.emit]
    | play =>
      simp [Basic05.dispatch, Basic05.on_button_play, Basic05.streams_list_after,
        Basic05.PlayerWindow.emit]
    | pause =>
      simp [Basic05.dispatch, Basic05.on_button_pause, Basic05.streams_list_after,
        Basic05.PlayerWindow.emit]
    | stop =>
      simp [Basic05.dispatch, Basic05.on_button_stop, Basic05.streams_list_after,
        Basic05.PlayerWindow.emit]
    | tags_changed =>
      simp [Basic05.dispatch, Basic05.on_tags_changed, Basic05.streams_list_after,
        Basic05.PlayerWindow.emit]


/-- A state request on one element leaves the requested state of every other
element as it was. -/
theorem DynamicSrc.state_of_request_other (states : List (Nat × State)) (e : Nat)
    (target : State) (element : Nat) (h : ¬ element = e) :
    DynamicSrc.state_of ((e, target) :: states.filter (fun x => x.1 != e)) element =
      DynamicSrc.state_of states element := by
  have hfind : ∀ l : List (Nat × State),
      (l.filter (fun x => x.1 != e)).find? (fun x => x.1 == element) =
        l.find? (fun x => x.1 == element) := by
    intro l
    induction l with
    | nil => rfl
    | cons x l ih =>
      by_cases hx : x.1 = e
      · have hxe : (x.1 == element) = false := by
          simp only [beq_eq_false_iff_ne, ne_eq]
          exact fun h2 => h (h2.symm.trans hx)
        have hf : (x.1 != e) = false := by simp [hx]
        simp only [List.filter_cons, hf, List.find?_cons, hxe, ih, Bool.false_eq_true,
          if_false]
      · have hf : (x.1 != e) = true := by simp [hx]
        simp only [List.filter_cons, hf, if_true, List.find?_cons, ih]
  have he : ¬ e = element := fun h2 => h h2.symm
  simp [DynamicSrc.state_of, List.find?_cons, he, hfind]

/-- C13: one call of `on_timeout` of dynamic_src on a pipeline that holds the
source linked to the sink and whose requested state is PLAYING, the library
calls succeeding and the factory returning an element other than the sink.
The call returns "continue" and has made exactly these calls, in this order:
NULL requested on the old source, the old source removed, the replacement
constructed, its two properties set, the replacement added, linked to the
sink, and PLAYING requested on it. Neither a removal of the sink nor a state
request on the sink is among them. Afterwards the pipeline holds exactly the
sink and the replacement with the single link replacement -> sink; the sink
has as many links (one) and the same requested state as before, and the
replacement has the state requested on the pipeline. -/
theorem C13_source_replacement (s : DynamicSrc.Ctl) (a : DynamicSrc.Answers)
    (created : GstObject)
    (hchildren : s.children = [s.source.id, s.sink.id] ∨
      s.children = [s.sink.id, s.source.id])
    (hlinks : s.links = [(s.source.id, s.sink.id)])
    (hdistinct : s.source.id ≠ s.sink.id)
    (htarget : DynamicSrc.state_of s.states s.pipeline.id = State.PLAYING)
    (hcreated : a.created = some created)
    (hfresh : created.id ≠ s.sink.id)
    (hremove : a.remove_ok = true) (hadd : a.add_ok = true) (hlink : a.link_ok = true) :
    ∃ s1 : DynamicSrc.Ctl,
      DynamicSrc.on_timeout s a = some (true, s1) ∧
      s1.log = s.log ++
        [Act.set_state s.source.id State.NULL,
         Act.bin_remove s.pipeline.id s.source.id,
         Act.create_element "videotestsrc" "source",
         Act.set_property_int created.id "pattern" (DynamicSrc.next_pattern s.pattern),
         Act.set_property_bool created.id "is_live" true,
         Act.bin_add s.pipeline.id created.id,
         Act.element_link created.id s.sink.id,
         Act.set_state created.id State.PLAYING] ∧
      Act.bin_remove s.pipeline.id s.sink.id ∉ s1.log.drop s.log.length ∧
      (∀ target : State, Act.set_state s.sink.id target ∉ s1.log.drop s.log.length) ∧
      s1.source = created ∧ s1.sink = s.sink ∧ s1.pipeline = s.pipeline ∧
      s1.children = [s.sink.id, created.id] ∧
      s1.links = [(created.id, s.sink.id)] ∧
      link_count s1.links s.sink.id = 1 ∧
      link_count s.links s.sink.id = 1 ∧
      DynamicSrc.state_of s1.states s.sink.id = DynamicSrc.state_of s.states s.sink.id ∧
      DynamicSrc.state_of s1.states created.id =
        DynamicSrc.state_of s.states s.pipeline.id := by
  have hne : ¬ s.sink.id = s.source.id := fun h => hdistinct h.symm
  have hne2 : ¬ s.sink.id = created.id := fun h => hfresh h.symm
  refine ⟨DynamicSrc.swapped s created, ?_, ?_, ?_, ?_, ?_, ?_, ?_, ?_, ?_, ?_, ?_, ?_, ?_⟩
  · simp only [DynamicSrc.on_timeout, hremove, hcreated, hadd, hlink, if_true]
    rfl
  · simp [DynamicSrc.swapped, DynamicSrc.request_state, DynamicSrc.link_nodes,
      DynamicSrc.add_node, DynamicSrc.remove_node, DynamicSrc.Ctl.emit]
  · simp [DynamicSrc.swapped, DynamicSrc.request_state, DynamicSrc.link_nodes,
      DynamicSrc.add_node, DynamicSrc.remove_node, DynamicSrc.Ctl.emit, hne, hne2]
  · intro target
    simp [DynamicSrc.swapped, DynamicSrc.request_state, DynamicSrc.link_nodes,
      DynamicSrc.add_node, DynamicSrc.remove_node, DynamicSrc.Ctl.emit, hne, hne2]
  · simp [DynamicSrc.swapped, DynamicSrc.request_state, DynamicSrc.link_nodes,
      DynamicSrc.add_node, DynamicSrc.remove_node, DynamicSrc.Ctl.emit]
  · simp [DynamicSrc.swapped, DynamicSrc.request_state, DynamicSrc.link_nodes,
      DynamicSrc.add_node, DynamicSrc.remove_node, DynamicSrc.Ctl.emit]
  · simp [DynamicSrc.swapped, DynamicSrc.request_state, DynamicSrc.link_nodes,
      DynamicSrc.add_node, DynamicSrc.remove_node, DynamicSrc.Ctl.emit]
  · rcases hchildren with h | h <;>
      simp [DynamicSrc.swapped, DynamicSrc.request_state, DynamicSrc.link_nodes,
        DynamicSrc.add_node, DynamicSrc.remove_node, DynamicSrc.Ctl.emit, h, hne, hdistinct]
  · simp [DynamicSrc.swapped, DynamicSrc.request_state, DynamicSrc.link_nodes,
      DynamicSrc.add_node, DynamicSrc.remove_node, DynamicSrc.Ctl.emit, hlinks]
  · simp [DynamicSrc.swapped, DynamicSrc.request_state, DynamicSrc.link_nodes,
      DynamicSrc.add_node, DynamicSrc.remove_node, DynamicSrc.Ctl.emit, hlinks, link_count]
  · simp [hlinks, link_count]
  · simp only [DynamicSrc.swapped, DynamicSrc.request_state, DynamicSrc.link_nodes,
      DynamicSrc.add_node, DynamicSrc.remove_node, DynamicSrc.Ctl.emit]
    rw [DynamicSrc.state_of_request_other _ _ _ _ hne2,
      DynamicSrc.state_of_request_other _ _ _ _ hne]
  · rw [htarget]
    simp [DynamicSrc.swapped, DynamicSrc.request_state, DynamicSrc.link_nodes,
      DynamicSrc.add_node, DynamicSrc.remove_node, DynamicSrc.Ctl.emit, DynamicSrc.state_of]


/-- C13, at the first tick after the start of dynamic_src: the source 20 is
replaced by the element 23 the factory returns; afterwards the pipeline holds
the sink 21 and the element 23, linked 23 -> 21. -/
theorem C13_source_replacement_witness :
    (DynamicSrc.on_timeout (DynamicSrc.Ctl.init first_source video_sink test_pipeline)
        (swap_to 23)).map (fun r => (r.1, r.2.children, r.2.links)) =
      some (true, [21, 23], [(23, 21)]) := by
  obtain ⟨s1, h, _, _, _, _, _, _, hc, hl, _⟩ :=
    C13_source_replacement (DynamicSrc.Ctl.init first_source video_sink test_pipeline)
      (swap_to 23) ⟨23, "source"⟩ (Or.inl rfl) rfl (by decide) (by decide) rfl (by decide)
      rfl rfl rfl
  rw [h, Option.map_some', hc, hl]
  rfl

/-- A call of `on_timeout` of dynamic_src whose library calls all succeed
returns "continue" with the state `swapped`. -/
theorem DynamicSrc.on_timeout_succeeds (s : DynamicSrc.Ctl) (a : DynamicSrc.Answers)
    (h : a.succeeds = true) :
    ∃ created, a.created = some created ∧
      DynamicSrc.on_timeout s a = some (true, DynamicSrc.swapped s created) := by
  simp only [DynamicSrc.Answers.succeeds, Bool.and_eq_true] at h
  obtain ⟨⟨⟨hc, hr⟩, ha⟩, hl⟩ := h
  cases hcr : a.created with
  | none => simp [hcr] at hc
  | some created =>
    refine ⟨created, rfl, ?_⟩
    simp only [DynamicSrc.on_timeout, hr, hcr, ha, hl, if_true]
    rfl

/-- The replacement step stores the next pattern and passes it to the new
source. -/
theorem DynamicSrc.swapped_pattern (s : DynamicSrc.Ctl) (created : GstObject) :
    (DynamicSrc.swapped s created).pattern = DynamicSrc.next_pattern s.pattern ∧
    pattern_values (DynamicSrc.swapped s created).log =
      pattern_values s.log ++ [DynamicSrc.next_pattern s.pattern] := by
  simp [DynamicSrc.swapped, DynamicSrc.request_state, DynamicSrc.link_nodes,
    DynamicSrc.add_node, DynamicSrc.remove_node, DynamicSrc.Ctl.emit, pattern_values,
    List.filterMap_append, List.filterMap_cons]

/-- The counter update maps `k mod 26` to `(k + 1) mod 26`. -/
theorem DynamicSrc.next_pattern_mod (k : Nat) :
    DynamicSrc.next_pattern ((k : Int) % 26) = ((k + 1 : Nat) : Int) % 26 := by
  unfold DynamicSrc.next_pattern DynamicSrc.to_int32
  push_cast
  split_ifs <;> omega

/-- From a counter of `k mod 26`, as many calls as there are answers, all
succeeding, lead to `(k + n) mod 26`, having passed the values in between. -/
theorem DynamicSrc.pattern_after_calls (answers : List DynamicSrc.Answers) (k : Nat)
    (s : DynamicSrc.Ctl) (hs : s.pattern = (k : Int) % 26)
    (hok : answers.all DynamicSrc.Answers.succeeds = true) :
    ∃ s1, DynamicSrc.on_timeout_all s answers = some s1 ∧
      s1.pattern = ((k + answers.length : Nat) : Int) % 26 ∧
      pattern_values s1.log = pattern_values s.log ++
        (List.range answers.length).map (fun i => ((k + i + 1 : Nat) : Int) % 26) := by
  induction answers generalizing k s with
  | nil => exact ⟨s, rfl, by simpa using hs, by simp⟩
  | cons a answers ih =>
    simp only [List.all_cons, Bool.and_eq_true] at hok
    obtain ⟨created, _, hstep⟩ := DynamicSrc.on_timeout_succeeds s a hok.1
    obtain ⟨hp, hv⟩ := DynamicSrc.swapped_pattern s created
    have hs1 : (DynamicSrc.swapped s created).pattern = ((k + 1 : Nat) : Int) % 26 := by
      rw [hp, hs, DynamicSrc.next_pattern_mod]
    obtain ⟨s1, hrun, hpat, hvals⟩ := ih (k + 1) (DynamicSrc.swapped s created) hs1 hok.2
    refine ⟨s1, ?_, ?_, ?_⟩
    · simp only [DynamicSrc.on_timeout_all, hstep]
      exact hrun
    · rw [hpat]
      simp only [List.length_cons]
      congr 2
      omega
    · rw [hvals, hv, hs, DynamicSrc.next_pattern_mod, List.length_cons,
        List.range_succ_eq_map, List.map_cons, List.map_map, List.append_assoc]
      simp only [List.singleton_append, Nat.add_zero]
      congr 2
      apply List.map_congr_left
      intro i _
      simp only [Function.comp]
      congr 2
      omega


/-- C16: the test-pattern counter of dynamic_src. From the initial value 0 of
the static counter, `n` calls of `on_timeout` whose library calls succeed all
return, and then (1) the counter is `n mod 26`, (2) the values given to the
property "pattern" of the replacement sources are `1 mod 26`, ...,
`n mod 26`, in this order, so the n-th one is `n mod 26`; (3) the counter is
in the range 0..25; (4) the next call replaces it by `pattern + 1` when it is
below 25 and by 0 otherwise, and (5) that sum is within the range of `int`, so
nothing overflows. -/
theorem C16_pattern_counter (s : DynamicSrc.Ctl) (answers : List DynamicSrc.Answers)
    (next : DynamicSrc.Answers)
    (hstart : s.pattern = 0)
    (hok : answers.all DynamicSrc.Answers.succeeds = true)
    (hnext : next.succeeds = true) :
    ∃ s1 : DynamicSrc.Ctl,
      DynamicSrc.on_timeout_all s answers = some s1 ∧
      s1.pattern = (answers.length : Int) % 26 ∧
      pattern_values s1.log = pattern_values s.log ++
        (List.range answers.length).map (fun i => ((i + 1 : Nat) : Int) % 26) ∧
      (0 ≤ s1.pattern ∧ s1.pattern ≤ 25) ∧
      (DynamicSrc.on_timeout s1 next).map (fun r => r.2.pattern) =
        some (if s1.pattern < 25 then s1.pattern + 1 else 0) ∧
      s1.pattern + 1 < 2147483648 := by
  obtain ⟨s1, hrun, hpat, hvals⟩ :=
    DynamicSrc.pattern_after_calls answers 0 s (by simpa using hstart) hok
  have hpat1 : s1.pattern = (answers.length : Int) % 26 := by
    simpa using hpat
  refine ⟨s1, hrun, hpat1, ?_, ⟨by omega, by omega⟩, ?_, by omega⟩
  · simpa using hvals
  · obtain ⟨created, _, hstep⟩ := DynamicSrc.on_timeout_succeeds s1 next hnext
    rw [hstep, Option.map_some', (DynamicSrc.swapped_pattern s1 created).1]
    simp only [DynamicSrc.next_pattern, DynamicSrc.to_int32]
    congr 1
    split_ifs <;> omega

/-- C16, at the first 27 ticks after the start of dynamic_src: the counter has
gone through 1, ..., 25, 0 and stands at 1 again. -/
theorem C16_pattern_counter_witness :
    (DynamicSrc.on_timeout_all (DynamicSrc.Ctl.init first_source video_sink test_pipeline)
        ((List.range 27).map (fun i => swap_to (30 + i)))).map (fun r => r.pattern) =
      some 1 := by
  obtain ⟨s1, h, hp, _⟩ :=
    C16_pattern_counter (DynamicSrc.Ctl.init first_source video_sink test_pipeline)
      ((List.range 27).map (fun i => swap_to (30 + i))) (swap_to 99) rfl (by decide) rfl
  rw [h, Option.map_some', hp]
  rfl


/-- C14 fails on the code for an argument that is not a valid URI: the default
URI is substituted, as C14 says, but nothing is printed. With the argument
absent the same substitution comes with the two lines on the console. In the
run of `main` of basic-tutorial-4 with the invalid argument, the first thing
that happens is the setting of the default URI on the playbin. -/
theorem C14_invalid_uri_replaced_silently :
    choose_uri ["basic-tutorial-4", "sintel.webm"] (fun _ => false) = (default_uri, []) ∧
    choose_uri ["basic-tutorial-4"] (fun _ => false) =
      (default_uri,
        [Act.cout "Usage: basic-tutorial-4 <uri>\n",
         Act.cout "missing uri argument, use default uri instead.\n"]) ∧
    (Basic04.main startup_invalid_uri []).2.log =
      [Act.set_property 1 "uri" default_uri, Act.set_state 1 State.PLAYING,
       Act.cout "Running.\n"] := by
  refine ⟨?_, ?_, ?_⟩ <;> decide

/-- The URI the command-line handling chooses is the argument exactly when
there is one and it is a valid URI, and the default URI otherwise. -/
theorem choose_uri_argument_or_default (argv : List String) (uri_is_valid : String → Bool) :
    (choose_uri argv uri_is_valid).1 =
      if 2 ≤ argv.length ∧ uri_is_valid (argv.getD 1 "") = true then argv.getD 1 ""
      else default_uri := by
  unfold choose_uri
  split_ifs <;> first | rfl | omega | simp_all

/-- C15 fails on the code when linking throws: `main` of basic-tutorial-3
catches the exception, prints it and goes on; it requests PLAYING, enters the
dispatch loop (still running when no event arrives) and, when the stream
ends, returns 0. When adding throws, `main` returns 1 without entering the
loop. -/
theorem C15_link_failure_not_fatal :
    (Basic03.main startup_link_throws []).1 = Outcome.running ∧
    (Basic03.main startup_link_throws [Basic03.Ev.bus end_of_stream]).1 =
      Outcome.exit EXIT_SUCCESS ∧
    (Basic03.main startup_link_throws []).2.log =
      [Act.cout "Usage: basic-tutorial-3 <uri>\n",
       Act.cout "missing uri argument, use default uri instead.\n",
       Act.bin_add 1 10, Act.bin_add 1 3, Act.bin_add 1 11, Act.bin_add 1 12,
       Act.element_link 3 11,
       Act.cout "Exception while linking elements: failed to link\n",
       Act.set_property 10 "uri" default_uri, Act.set_state 1 State.PLAYING,
       Act.cout "Running.\n"] ∧
    Basic03.main startup_add_throws [Basic03.Ev.bus end_of_stream] =
      (Outcome.exit EXIT_FAILURE,
        { mainloop_running := true, sink_peer := none,
          log := [Act.cout "Usage: basic-tutorial-3 <uri>\n",
                  Act.cout "missing uri argument, use default uri instead.\n",
                  Act.bin_add 1 10,
                  Act.cerr "Exception while adding: failed to add\n"] }) := by
  refine ⟨?_, ?_, ?_, ?_⟩ <;> decide


/-- C17 as stated fails: the time of 5 ns is formatted as
"000:00:00.500000000", a string of 19 characters, not 16, whose fraction is
not the remainder written with leading zeros ("000000005"); and the distinct
times 5 ns and 50 ns are formatted as the same string. -/
theorem C17_five_nanoseconds :
    (Basic04.format_gst_time 5).str = "000:00:00.500000000" ∧
    (Basic04.format_gst_time 5).str.length = 19 ∧
    (Basic04.format_gst_time 5).str ≠ String.mk
      (zero_padded 3 0 ++ ":".toList ++ zero_padded 2 0 ++ ":".toList ++ zero_padded 2 0 ++
        ".".toList ++ zero_padded 9 5) ∧
    (Basic04.format_gst_time 50).str = (Basic04.format_gst_time 5).str := by
  refine ⟨?_, ?_, ?_, ?_⟩ <;> decide

/-- Zero written with `k` digits is `k` zeros. -/
theorem zero_padded_zero (k : Nat) : zero_padded k 0 = List.replicate k '0' := by
  induction k with
  | zero => rfl
  | succ k ih =>
    simp only [zero_padded, Nat.zero_div, Nat.zero_mod, ih, List.replicate_succ']
    rfl

/-- A number written with `k` digits has `k` characters. -/
theorem zero_padded_length (k n : Nat) : (zero_padded k n).length = k := by
  induction k generalizing n with
  | zero => rfl
  | succ k ih => simp [zero_padded, ih]

/-- The decimal text of a number below `10 ^ (k + 1)` has at most `k + 1`
characters, and filled up on the left with zeros to `k + 1` characters it is
the number written with `k + 1` digits. -/
theorem decimal_fuel_filled (k : Nat) (n fuel : Nat) (hn : n < 10 ^ (k + 1))
    (hfuel : n < fuel) :
    (decimal_fuel fuel n).length ≤ k + 1 ∧
    List.replicate (k + 1 - (decimal_fuel fuel n).length) '0' ++ decimal_fuel fuel n =
      zero_padded (k + 1) n := by
  induction k generalizing n fuel with
  | zero =>
    obtain ⟨fuel, rfl⟩ : ∃ f, fuel = f + 1 := ⟨fuel - 1, by omega⟩
    have h10 : n < 10 := by simpa using hn
    simp [decimal_fuel, h10, zero_padded, Nat.mod_eq_of_lt h10]
  | succ k ih =>
    obtain ⟨fuel, rfl⟩ : ∃ f, fuel = f + 1 := ⟨fuel - 1, by omega⟩
    by_cases h10 : n < 10
    · have hdiv : n / 10 = 0 := Nat.div_eq_of_lt h10
      simp only [decimal_fuel, h10, if_true, List.length_singleton]
      refine ⟨by omega, ?_⟩
      have hk : k + 1 + 1 - 1 = k + 1 := by omega
      rw [hk]
      conv_rhs => rw [zero_padded, hdiv, zero_padded_zero, Nat.mod_eq_of_lt h10]
    · have hlt : n / 10 < 10 ^ (k + 1) := by
        apply Nat.div_lt_of_lt_mul
        rw [← Nat.pow_succ']
        exact hn
      have hf : n / 10 < fuel := by omega
      obtain ⟨hlen, heq⟩ := ih (n / 10) fuel hlt hf
      simp only [decimal_fuel, h10, if_false, List.length_append, List.length_singleton]
      refine ⟨by omega, ?_⟩
      have hk : k + 1 + 1 - ((decimal_fuel fuel (n / 10)).length + 1) =
          k + 1 - (decimal_fuel fuel (n / 10)).length := by omega
      rw [hk, ← List.append_assoc, heq]
      rfl

/-- The decimal text of a number consists of digits. -/
theorem decimal_fuel_digits (fuel n : Nat) :
    (decimal_fuel fuel n).all Char.isDigit = true := by
  have hd : ∀ d, d < 10 → (Nat.digitChar d).isDigit = true := by decide
  induction fuel generalizing n with
  | zero => rfl
  | succ fuel ih =>
    by_cases h10 : n < 10
    · simp [decimal_fuel, h10, hd n h10]
    · simp only [decimal_fuel, h10, if_false, List.all_append, ih, Bool.true_and,
        List.all_cons, List.all_nil, Bool.and_true]
      exact hd _ (Nat.mod_lt _ (by decide))


/-- The text `format_gst_time` writes: the three right-adjusted fields of
hours, minutes and seconds, and the left-adjusted field of the fraction, all
filled with zeros, with the separators between them. -/
theorem Basic04.format_gst_time_out (t : Int) :
    (Basic04.format_gst_time t).out =
      (List.replicate (3 - (decimal (get_hours (to_clock_time t))).length) '0' ++
          decimal (get_hours (to_clock_time t))) ++ [':'] ++
        (List.replicate (2 - (decimal (get_minutes (to_clock_time t))).length) '0' ++
          decimal (get_minutes (to_clock_time t))) ++ [':'] ++
        (List.replicate (2 - (decimal (get_seconds (to_clock_time t))).length) '0' ++
          decimal (get_seconds (to_clock_time t))) ++ ['.'] ++
        (decimal (get_fractional_seconds (to_clock_time t)) ++
          List.replicate (9 - (decimal (get_fractional_seconds (to_clock_time t))).length)
            '0') := by
  simp [Basic04.format_gst_time, OStream.put_uint, OStream.put, OStream.setw,
    OStream.setfill, OStream.set_adjust, OStream.empty]

/-- C17, amended: for a time `t` in nanoseconds with 0 <= t < 1000 hours,
`format_gst_time` gives a string of 19 characters HHH:MM:SS.NNNNNNNNN: the
first ten are HHH = t / 3600e9 written with three digits, ":", MM =
(t / 60e9) mod 60 written with two digits, ":", SS = (t / 1e9) mod 60 written
with two digits, all with leading zeros, and "."; the last nine are decimal
digits. -/
theorem C17_format_fields (t : Int) (h0 : 0 ≤ t) (h1 : t < 3600000000000000) :
    (Basic04.format_gst_time t).str.length = 19 ∧
    (Basic04.format_gst_time t).out.take 10 =
      zero_padded 3 (t.toNat / 3600000000000) ++ [':'] ++
        zero_padded 2 (t.toNat / 60000000000 % 60) ++ [':'] ++
        zero_padded 2 (t.toNat / 1000000000 % 60) ++ ['.'] ∧
    ((Basic04.format_gst_time t).out.drop 10).length = 9 ∧
    ((Basic04.format_gst_time t).out.drop 10).all Char.isDigit = true := by
  obtain ⟨n, rfl⟩ := Int.eq_ofNat_of_zero_le h0
  have hn : n < 3600000000000000 := by omega
  have hct : to_clock_time (n : Int) = n := by
    unfold to_clock_time
    omega
  have hH : get_hours n = n / 3600000000000 := by
    unfold get_hours
    rw [if_neg (by omega)]
    omega
  have hM : get_minutes n = n / 60000000000 % 60 := by
    unfold get_minutes
    rw [if_neg (by omega)]
  have hS : get_seconds n = n / 1000000000 % 60 := by
    unfold get_seconds
    rw [if_neg (by omega)]
  have hF : get_fractional_seconds n = n % 1000000000 := by
    unfold get_fractional_seconds
    rw [if_neg (by omega)]
  have eH := (decimal_fuel_filled 2 (n / 3600000000000) (n / 3600000000000 + 1)
    (by norm_num; omega) (Nat.lt_succ_self _)).2
  have eM := (decimal_fuel_filled 1 (n / 60000000000 % 60) (n / 60000000000 % 60 + 1)
    (by norm_num; omega) (Nat.lt_succ_self _)).2
  have eS := (decimal_fuel_filled 1 (n / 1000000000 % 60) (n / 1000000000 % 60 + 1)
    (by norm_num; omega) (Nat.lt_succ_self _)).2
  have lF := (decimal_fuel_filled 8 (n % 1000000000) (n % 1000000000 + 1)
    (by norm_num; omega) (Nat.lt_succ_self _)).1
  have dF := decimal_fuel_digits (n % 1000000000 + 1) (n % 1000000000)
  have hout : (Basic04.format_gst_time (n : Int)).out =
      (zero_padded 3 (n / 3600000000000) ++ [':'] ++
        zero_padded 2 (n / 60000000000 % 60) ++ [':'] ++
        zero_padded 2 (n / 1000000000 % 60) ++ ['.']) ++
      (decimal (n % 1000000000) ++
        List.replicate (9 - (decimal (n % 1000000000)).length) '0') := by
    rw [Basic04.format_gst_time_out, hct, hH, hM, hS, hF]
    unfold decimal
    rw [eH, eM, eS]
  have hpre : (zero_padded 3 (n / 3600000000000) ++ [':'] ++
        zero_padded 2 (n / 60000000000 % 60) ++ [':'] ++
        zero_padded 2 (n / 1000000000 % 60) ++ ['.']).length = 10 := by
    simp [zero_padded_length]
  have hfrac : (decimal (n % 1000000000) ++
        List.replicate (9 - (decimal (n % 1000000000)).length) '0').length = 9 := by
    unfold decimal
    simp only [List.length_append, List.length_replicate]
    omega
  have htoNat : ((n : Int)).toNat = n := Int.toNat_ofNat n
  refine ⟨?_, ?_, ?_, ?_⟩
  · show (Basic04.format_gst_time (n : Int)).out.length = 19
    rw [hout, List.length_append, hpre, hfrac]
  · rw [hout, htoNat, ← hpre, List.take_left]
  · rw [hout, ← hpre, List.drop_left, hfrac]
  · rw [hout, ← hpre, List.drop_left]
    unfold decimal
    simp [List.all_append, dF]


/-- C17, at the time 1 h 2 min 3 s and 5 ns: 19 characters that begin with
"001:02:03.". -/
theorem C17_format_fields_witness :
    (Basic04.format_gst_time 3723000000005).str.length = 19 ∧
    (Basic04.format_gst_time 3723000000005).out.take 10 = "001:02:03.".toList :=
  have h := C17_format_fields 3723000000005 (by decide) (by decide)
  ⟨h.1, h.2.1.trans (by decide)⟩

end GstTutorial
